import Mathlib

/-!
Scaleway provider, container helpers.

A shallow embedding of `internal/services/container/helpers_container.go`,
of the trigger entry points of `internal/services/container/trigger.go`, of the
deployment entry points of `internal/services/inference/deployment.go` and of the
endpoint entry points of `internal/services/documentdb/private_network_endpoint.go`, and the
properties of the secret patch filter, the request builders, the scaling-option
builder, the domain-creation retry wrapper, the waiter and the entry points.
-/

set_option autoImplicit false

namespace Scaleway

/-! ## Secrets -/

/-- The SDK type `container.Secret`: a key and a nullable value (`*string`). -/
structure Secret where
  Key : String
  Value : Option String
  deriving DecidableEq, Repr

/-- Go `strings.HasPrefix(s, pre)`. -/
def HasPrefix (s pre : String) : Bool :=
  pre.toList.isPrefixOf s.toList

/-- The marker that starts every value the API returns hashed. -/
def hashedMarker : String := "$argon2id"

/-- A nullable secret value is a hashed placeholder when it is present and starts with
the argon2id marker. -/
def isHashedPlaceholder (v : Option String) : Bool :=
  match v with
  | some s => HasPrefix s hashedMarker
  | none => false

/-- Go `slices.ContainsFunc(newEnv, func(s) bool { return s.Key == key })`. -/
def containsKey (newEnv : List Secret) (key : String) : Bool :=
  newEnv.any (fun s => s.Key == key)

/-- The function `filterSecretEnvsToPatch`: the first loop appends every entry of `newEnv`
that is not a present value with the argon2id prefix, the second loop appends
`Secret{Key: env.Key, Value: nil}` for every entry of `oldEnv` whose key no
entry of `newEnv` carries. -/
def filterSecretEnvsToPatch (oldEnv newEnv : List Secret) : List Secret :=
  let toPatch : List Secret := []
  -- create and update - ignore hashed values
  let toPatch := newEnv.foldl
    (fun toPatch env =>
      match env.Value with
      | some v => if HasPrefix v "$argon2id" then toPatch else toPatch ++ [env]
      | none => toPatch ++ [env])
    toPatch
  -- delete
  oldEnv.foldl
    (fun toPatch env =>
      if !containsKey newEnv env.Key then toPatch ++ [{ Key := env.Key, Value := none }]
      else toPatch)
    toPatch

/-! ## Go values, errors and the resource data of the engine -/

/-- A Go `error` value: an SDK `*scw.ResponseError`, a plain error (`errors.New`), or an
error wrapping another one (reachable through `Unwrap`). -/
inductive GoError where
  | responseError (statusCode : Nat) (message : String)
  | errorString (text : String)
  | wrapped (text : String) (inner : GoError)
  deriving DecidableEq, Repr

/-- How a Go call can fail: it returns a non-nil `error`, or it panics (failed type
assertion, nil pointer dereference). -/
inductive Failure where
  | returned (err : GoError)
  | panicked
  deriving DecidableEq, Repr

/-- A Go value of type `any` as stored in `schema.ResourceData`: `set` is a `*schema.Set`
given by its `List()`, `map` is a `map[string]any` given by its entries. -/
inductive Value where
  | null
  | int (n : Int)
  | str (s : String)
  | bool (b : Bool)
  | list (items : List Value)
  | set (items : List Value)
  | map (entries : List (String × Value))

/-- The `*schema.ResourceData` handle as the builders use it: `HasChange key`
(`d.HasChange` / `d.HasChanges` with one key), `Get key`, the old value of
`d.GetChange key` (its new value is `Get key`), and the pair `(value, ok)` of
`d.GetOk key`. -/
structure ResourceData where
  HasChange : String → Bool
  Get : String → Value
  GetOld : String → Value
  GetOk : String → Value × Bool := fun _ => (.null, false)

/-- Go conversion `uint32(n)` of an `int`. -/
def uint32 (n : Int) : Nat := (n % 4294967296).toNat

/-- The comma-ok type assertion `v.(int)`. -/
def assertInt : Value → Option Int
  | .int n => some n
  | _ => none

/-- The comma-ok type assertion `v.(string)`. -/
def assertString : Value → Option String
  | .str s => some s
  | _ => none

/-- A type assertion or pointer dereference without comma-ok: panics when there is no value. -/
def orPanic {α : Type} : Option α → Except Failure α
  | some a => .ok a
  | none => .error .panicked

/-- Go map indexing `m[key]`: the zero value (`nil`) when the key is absent. -/
def mapIndex (m : List (String × Value)) (key : String) : Value :=
  (m.lookup key).getD .null

/-! ## SDK request types -/

/-- The SDK type `scw.Duration`. -/
structure ScwDuration where
  Seconds : Int
  Nanos : Int
  deriving DecidableEq, Repr

/-- The SDK type `container.ContainerScalingOption`: three nullable thresholds. -/
structure ContainerScalingOption where
  ConcurrentRequestsThreshold : Option Nat := none
  CPUUsageThreshold : Option Nat := none
  MemoryUsageThreshold : Option Nat := none
  deriving DecidableEq, Repr

/-- The SDK type `container.ContainerHealthCheckSpecHTTPProbe`. -/
structure ContainerHealthCheckSpecHTTPProbe where
  Path : String := ""
  deriving DecidableEq, Repr

/-- The SDK type `container.ContainerHealthCheckSpec`, with the fields the provider sets. -/
structure ContainerHealthCheckSpec where
  HTTP : Option ContainerHealthCheckSpecHTTPProbe := none
  FailureThreshold : Nat := 0
  Interval : Option ScwDuration := none
  deriving DecidableEq, Repr

/-- The SDK type `container.UpdateContainerRequest`. Pointer and slice fields are `Option`s
(`none` is nil); the string enums `Privacy`, `Protocol`, `HTTPOption`, `Sandbox` have
the empty string as zero value. -/
structure UpdateContainerRequest where
  Region : String
  ContainerID : String
  EnvironmentVariables : Option (List (String × String)) := none
  MinScale : Option Nat := none
  MaxScale : Option Nat := none
  MemoryLimit : Option Nat := none
  CPULimit : Option Nat := none
  Timeout : Option ScwDuration := none
  Redeploy : Option Bool := none
  Privacy : String := ""
  Description : Option String := none
  RegistryImage : Option String := none
  MaxConcurrency : Option Nat := none
  Protocol : String := ""
  Port : Option Nat := none
  SecretEnvironmentVariables : Option (List Secret) := none
  HTTPOption : String := ""
  Sandbox : String := ""
  LocalStorageLimit : Option Nat := none
  ScalingOption : Option ContainerScalingOption := none
  HealthCheck : Option ContainerHealthCheckSpec := none
  Tags : Option (List String) := none
  PrivateNetworkID : Option String := none
  Command : Option (List String) := none
  Args : Option (List String) := none
  deriving DecidableEq, Repr

/-- The helpers of the packages `types` and `locality` and of the SDK that the builders
call. They are parameters of the model: every statement holds for arbitrary ones. -/
structure Helpers where
  ExpandStringPtr : Value → Option String
  ExpandUpdatedStringPtr : Value → Option String
  ExpandUpdatedStringsPtr : Value → Option (List String)
  ExpandMapPtrStringString : Value → Option (List (String × String))
  ExpandBoolPtr : Value → Option Bool
  ExpandID : Value → String
  ExpandDuration : Value → Option Int × Option GoError
  NewDurationFromTimeDuration : Int → Option ScwDuration

/-! ## Scaling options and health checks -/

/-- The loop of `expandScalingOptions` over `scalingOption.List()`: items that are not a
`map[string]any` are skipped, the first map decides the result. -/
def expandScalingOptionsList : List Value → Option ContainerScalingOption × Option GoError
  | [] => (some {}, none)
  | .map rawOption :: _ =>
    let setFields : Nat := 0
    let cso : ContainerScalingOption := {}
    let (cso, setFields) :=
      match assertInt (mapIndex rawOption "concurrent_requests_threshold") with
      | some concurrentRequestThresold =>
        if concurrentRequestThresold ≠ 0 then
          ({ cso with ConcurrentRequestsThreshold := some (uint32 concurrentRequestThresold) },
            setFields + 1)
        else (cso, setFields)
      | none => (cso, setFields)
    let (cso, setFields) :=
      match assertInt (mapIndex rawOption "cpu_usage_threshold") with
      | some cpuUsageThreshold =>
        if cpuUsageThreshold ≠ 0 then
          ({ cso with CPUUsageThreshold := some (uint32 cpuUsageThreshold) }, setFields + 1)
        else (cso, setFields)
      | none => (cso, setFields)
    let (cso, setFields) :=
      match assertInt (mapIndex rawOption "memory_usage_threshold") with
      | some memoryUsageThreshold =>
        if memoryUsageThreshold ≠ 0 then
          ({ cso with MemoryUsageThreshold := some (uint32 memoryUsageThreshold) }, setFields + 1)
        else (cso, setFields)
      | none => (cso, setFields)
    if setFields > 1 then
      (some {}, some (.errorString "a maximum of one scaling option can be set"))
    else (some cso, none)
  | _ :: rest => expandScalingOptionsList rest

/-- The function `expandScalingOptions`: the pair `(*ContainerScalingOption, error)`. -/
def expandScalingOptions (scalingOptionSchema : Value) :
    Option ContainerScalingOption × Option GoError :=
  match scalingOptionSchema with
  | .set items => expandScalingOptionsList items
  | _ => (some {}, none)

/-- The loop of `expendHealthCheckHTTP` over `healthCheckHTTP.List()`. -/
def expendHealthCheckHTTPList : List Value → Option ContainerHealthCheckSpecHTTPProbe
  | [] => some {}
  | .map rawOption :: _ =>
    let httpProbe : ContainerHealthCheckSpecHTTPProbe := {}
    let httpProbe :=
      match assertString (mapIndex rawOption "path") with
      | some path => { httpProbe with Path := path }
      | none => httpProbe
    some httpProbe
  | _ :: rest => expendHealthCheckHTTPList rest

/-- The function `expendHealthCheckHTTP`. -/
def expendHealthCheckHTTP (healthCheckHTTPSchema : Value) :
    Option ContainerHealthCheckSpecHTTPProbe :=
  match healthCheckHTTPSchema with
  | .set items => expendHealthCheckHTTPList items
  | _ => some {}

/-- The loop of `expandHealthCheck` over `healthCheck.List()`. The result is the returned
pair `(*ContainerHealthCheckSpec, error)`, or a panic. -/
def expandHealthCheckList (x : Helpers) :
    List Value → Except Failure (Option ContainerHealthCheckSpec × Option GoError)
  | [] => pure (some {}, none)
  | .map rawOption :: _ => do
    let healthCheckSpec : ContainerHealthCheckSpec := {}
    let healthCheckSpec :=
      match mapIndex rawOption "http" with
      | .set http => { healthCheckSpec with HTTP := expendHealthCheckHTTP (.set http) }
      | _ => healthCheckSpec
    -- Failure threshold is a required field and will be checked by TF.
    let failureThreshold ← orPanic (assertInt (mapIndex rawOption "failure_threshold"))
    let healthCheckSpec := { healthCheckSpec with FailureThreshold := uint32 failureThreshold }
    match rawOption.lookup "interval" with
    | some interval =>
      match x.ExpandDuration interval with
      | (_, some err) => pure (none, some err)
      | (duration, none) => do
        let duration ← orPanic duration
        pure (some { healthCheckSpec with Interval := x.NewDurationFromTimeDuration duration },
          none)
    | none => pure (some healthCheckSpec, none)
  | _ :: rest => expandHealthCheckList x rest

/-- The function `expandHealthCheck`. -/
def expandHealthCheck (x : Helpers) (healthCheckSchema : Value) :
    Except Failure (Option ContainerHealthCheckSpec × Option GoError) :=
  match healthCheckSchema with
  | .set items => expandHealthCheckList x items
  | _ => pure (some {}, none)

/-- The function `expandContainerSecrets`: one secret per entry of the raw map, in the
iteration order of the map; the assertion `secretsRawMap.(map[string]any)` panics on any
other value. -/
def expandContainerSecrets (x : Helpers) (secretsRawMap : Value) : Except Failure (List Secret) :=
  match secretsRawMap with
  | .map secretsMap =>
    pure (secretsMap.map (fun kv => { Key := kv.1, Value := x.ExpandStringPtr kv.2 }))
  | _ => .error .panicked

/-! ## The partial-update request builder -/

/-- The function `setUpdateContainerRequest`: the returned pair is `(req, nil)` on `.ok req`
and `(nil, err)` on `.error (.returned err)`. The blocks follow the source in order. -/
def setUpdateContainerRequest (x : Helpers) (d : ResourceData) (region containerID : String) :
    Except Failure UpdateContainerRequest := do
  let req : UpdateContainerRequest := { Region := region, ContainerID := containerID }
  let req ←
    (if d.HasChange "environment_variables" then
      pure { req with
        EnvironmentVariables := x.ExpandMapPtrStringString (d.Get "environment_variables") }
    else pure req)
  let req ←
    (if d.HasChange "secret_environment_variables" then do
      let oldEnv ← expandContainerSecrets x (d.GetOld "secret_environment_variables")
      let newEnv ← expandContainerSecrets x (d.Get "secret_environment_variables")
      pure { req with SecretEnvironmentVariables := some (filterSecretEnvsToPatch oldEnv newEnv) }
    else pure req)
  let req ←
    (if d.HasChange "tags" then
      pure { req with Tags := x.ExpandUpdatedStringsPtr (d.Get "tags") }
    else pure req)
  let req ←
    (if d.HasChange "min_scale" then do
      let v ← orPanic (assertInt (d.Get "min_scale"))
      pure { req with MinScale := some (uint32 v) }
    else pure req)
  let req ←
    (if d.HasChange "max_scale" then do
      let v ← orPanic (assertInt (d.Get "max_scale"))
      pure { req with MaxScale := some (uint32 v) }
    else pure req)
  let req ←
    (if d.HasChange "memory_limit" then do
      let v ← orPanic (assertInt (d.Get "memory_limit"))
      pure { req with MemoryLimit := some (uint32 v) }
    else pure req)
  let req ←
    (if d.HasChange "cpu_limit" then do
      let v ← orPanic (assertInt (d.Get "cpu_limit"))
      pure { req with CPULimit := some (uint32 v) }
    else pure req)
  let req ←
    (if d.HasChange "timeout" then do
      let v ← orPanic (assertInt (d.Get "timeout"))
      pure { req with Timeout := some { Seconds := v, Nanos := 0 } }
    else pure req)
  let req ←
    (if d.HasChange "privacy" then do
      let v ← orPanic (x.ExpandStringPtr (d.Get "privacy"))
      pure { req with Privacy := v }
    else pure req)
  let req ←
    (if d.HasChange "description" then
      pure { req with Description := x.ExpandUpdatedStringPtr (d.Get "description") }
    else pure req)
  let req ←
    (if d.HasChange "registry_image" then
      pure { req with RegistryImage := x.ExpandStringPtr (d.Get "registry_image") }
    else pure req)
  let req ←
    (if d.HasChange "max_concurrency" then do
      let v ← orPanic (assertInt (d.Get "max_concurrency"))
      pure { req with MaxConcurrency := some (uint32 v) }
    else pure req)
  let req ←
    (if d.HasChange "protocol" then do
      let v ← orPanic (x.ExpandStringPtr (d.Get "protocol"))
      pure { req with Protocol := v }
    else pure req)
  let req ←
    (if d.HasChange "port" then do
      let v ← orPanic (assertInt (d.Get "port"))
      pure { req with Port := some (uint32 v) }
    else pure req)
  let req ←
    (if d.HasChange "http_option" then do
      let v ← orPanic (assertString (d.Get "http_option"))
      pure { req with HTTPOption := v }
    else pure req)
  let req ←
    (if d.HasChange "deploy" then
      pure { req with Redeploy := x.ExpandBoolPtr (d.Get "deploy") }
    else pure req)
  let req ←
    (if d.HasChange "sandbox" then do
      let v ← orPanic (assertString (d.Get "sandbox"))
      pure { req with Sandbox := v }
    else pure req)
  let req ←
    (if d.HasChange "health_check" then do
      let healthCheck := d.Get "health_check"
      match ← expandHealthCheck x healthCheck with
      | (_, some errExpandHealthCheck) => throw (.returned errExpandHealthCheck)
      | (healthCheckReq, none) => pure { req with HealthCheck := healthCheckReq }
    else pure req)
  let req ←
    (if d.HasChange "scaling_option" then do
      let scalingOption := d.Get "scaling_option"
      match expandScalingOptions scalingOption with
      | (_, some err) => throw (.returned err)
      | (scalingOptionReq, none) => pure { req with ScalingOption := scalingOptionReq }
    else pure req)
  let imageHasChanged := d.HasChange "registry_sha256"
  let req ←
    (if imageHasChanged then
      pure { req with Redeploy := some imageHasChanged }
    else pure req)
  let req ←
    (if d.HasChange "local_storage_limit" then do
      let v ← orPanic (assertInt (d.Get "local_storage_limit"))
      pure { req with LocalStorageLimit := some (uint32 v) }
    else pure req)
  let req ←
    (if d.HasChange "command" then
      pure { req with Command := x.ExpandUpdatedStringsPtr (d.Get "command") }
    else pure req)
  let req ←
    (if d.HasChange "args" then
      pure { req with Args := x.ExpandUpdatedStringsPtr (d.Get "args") }
    else pure req)
  let req ←
    (if d.HasChange "private_network_id" then
      pure { req with
        PrivateNetworkID :=
          x.ExpandUpdatedStringPtr (.str (x.ExpandID (d.Get "private_network_id"))) }
    else pure req)
  return req

/-! ## The retry wrapper for domain creation -/

/-- Go `errors.As(err, &responseError)` for a target of type `*scw.ResponseError`: the
message of the first response error on the `Unwrap` chain. -/
def asResponseError : GoError → Option String
  | .responseError _ message => some message
  | .errorString _ => none
  | .wrapped _ inner => asResponseError inner

/-- The function `isContainerDNSResolveError`, on a nullable `error`. -/
def isContainerDNSResolveError (err : Option GoError) : Bool :=
  match err with
  | none => false
  | some e =>
    match asResponseError e with
    | none => false
    | some message => HasPrefix message "could not validate domain"

/-- The constant `DefaultContainerRetryInterval`, in nanoseconds (the unit of
`time.Duration`). -/
def DefaultContainerRetryInterval : Nat := 5 * 1000000000

/-- The SDK type `container.Domain`, with its identifying fields. -/
structure Domain where
  ID : String
  Hostname : String
  ContainerID : String
  deriving DecidableEq, Repr

/-- What one call of `containerAPI.CreateDomain` does: the pair it returns and the time
the call takes, in nanoseconds. -/
structure CallResult where
  domain : Option Domain
  err : Option GoError
  duration : Nat
  deriving DecidableEq, Repr

/-- A run of `retryCreateContainerDomain`: the returned pair, instrumented with the number
of `CreateDomain` calls made, the time (from entry, in nanoseconds) at which the last
call started, the time at which the function returns, and whether the last call was
the one of the `timeoutChannel` case. -/
structure RetryRun where
  domain : Option Domain
  err : Option GoError
  calls : Nat
  lastStart : Nat
  elapsed : Nat
  afterTimeout : Bool
  deriving DecidableEq, Repr

/-- The `for { select { ... } }` loop of `retryCreateContainerDomain`, entered at time `now`
with `n` calls made so far. `CreateDomain n` is the behaviour of call number `n`;
`deadline` is when `timeoutChannel` fires. The fresh `time.After(interval)` fires at
`now + interval`: the retry case runs when that is before the deadline, the timeout
case when the deadline is earlier (or has passed), and `tie n` picks the case when
both fire at the same instant. `fuel` bounds the number of iterations (`none` when
it runs out). -/
def retryLoop (CreateDomain : Nat → CallResult) (tie : Nat → Bool) (deadline : Nat) :
    Nat → Nat → Nat → Option RetryRun
  | 0, _, _ => none
  | fuel + 1, now, n =>
    if now + DefaultContainerRetryInterval < deadline
        ∨ (now + DefaultContainerRetryInterval = deadline ∧ tie n = true) then
      -- case <-time.After(DefaultContainerRetryInterval)
      let start := now + DefaultContainerRetryInterval
      let r := CreateDomain n
      if r.err ≠ none ∧ isContainerDNSResolveError r.err = true then
        retryLoop CreateDomain tie deadline fuel (start + r.duration) (n + 1)
      else
        some { domain := r.domain, err := r.err, calls := n + 1, lastStart := start,
               elapsed := start + r.duration, afterTimeout := false }
    else
      -- case <-timeoutChannel
      let start := max now deadline
      let r := CreateDomain n
      some { domain := r.domain, err := r.err, calls := n + 1, lastStart := start,
             elapsed := start + r.duration, afterTimeout := true }

/-- The function `retryCreateContainerDomain` with a timeout in nanoseconds:
`time.After(timeout)` fires at `timeout`, at once when it is not positive. The loop gets
one iteration per retry interval that fits before the deadline, plus one. -/
def retryCreateContainerDomain (CreateDomain : Nat → CallResult) (tie : Nat → Bool)
    (timeout : Int) : Option RetryRun :=
  let deadline := timeout.toNat
  retryLoop CreateDomain tie deadline (deadline / DefaultContainerRetryInterval + 1) 0 0

/-- The time at which iteration `n` of the loop is entered when the calls before it were
all retried: each earlier iteration waits one interval and then makes its call. -/
def selectTime (CreateDomain : Nat → CallResult) : Nat → Nat
  | 0 => 0
  | n + 1 => selectTime CreateDomain n + DefaultContainerRetryInterval + (CreateDomain n).duration

/-! ## Sample inputs -/

/-- An instance of the helpers, used to run the builders on concrete inputs. -/
def sampleHelpers : Helpers where
  ExpandStringPtr := fun v =>
    match v with
    | .str s => if s = "" then none else some s
    | _ => none
  ExpandUpdatedStringPtr := fun v =>
    match v with
    | .str s => some s
    | _ => some ""
  ExpandUpdatedStringsPtr := fun v =>
    match v with
    | .list items => some (items.filterMap assertString)
    | _ => some []
  ExpandMapPtrStringString := fun v =>
    match v with
    | .map entries =>
      some (entries.filterMap (fun kv => (assertString kv.2).map (fun s => (kv.1, s))))
    | _ => none
  ExpandBoolPtr := fun v =>
    match v with
    | .bool b => some b
    | _ => none
  ExpandID := fun v =>
    match v with
    | .str s => s
    | _ => ""
  ExpandDuration := fun v =>
    match v with
    | .int n => (some n, none)
    | .null => (none, none)
    | _ => (none, some (.errorString "invalid duration"))
  NewDurationFromTimeDuration := fun t =>
    some { Seconds := t / 1000000000, Nanos := t % 1000000000 }

/-- Resource data in which nothing is reported changed. -/
def sampleUnchanged : ResourceData where
  HasChange := fun _ => false
  Get := fun _ => .null
  GetOld := fun _ => .null

/-- Resource data in which `min_scale` changed to 3, and nothing else. -/
def sampleMinScale : ResourceData where
  HasChange := fun key => key == "min_scale"
  Get := fun key => if key == "min_scale" then .int 3 else .null
  GetOld := fun _ => .null

/-- Resource data in which `deploy` changed to `false` and the image digest changed. -/
def sampleDigest : ResourceData where
  HasChange := fun key => key == "deploy" || key == "registry_sha256"
  Get := fun key =>
    if key == "deploy" then .bool false
    else if key == "registry_sha256" then .str "sha256:0a1b" else .null
  GetOld := fun _ => .null

/-- A remote call that always fails with the transient DNS error after 100 seconds. -/
def slowTransientCall : Nat → CallResult :=
  fun _ =>
    { domain := none
      err := some (.responseError 400 "could not validate domain: no such host")
      duration := 100000000000 }

/-- A remote call that fails twice with the transient DNS error and then succeeds, each
call taking one second. -/
def thirdTimeLucky : Nat → CallResult :=
  fun n =>
    if n < 2 then
      { domain := none
        err := some (.responseError 400 "could not validate domain: no such host")
        duration := 1000000000 }
    else
      { domain := some { ID := "d-1", Hostname := "example.com", ContainerID := "c-1" }
        err := none
        duration := 1000000000 }

/-! ## Predicates used by the statements -/

/-- A threshold of a scaling-option block is set when the block holds a non-zero `int`
under its key. -/
def thresholdIsSet (rawOption : List (String × Value)) (key : String) : Bool :=
  match assertInt (mapIndex rawOption key) with
  | some v => decide (v ≠ 0)
  | none => false

/-- The number of thresholds set in a scaling-option block. -/
def thresholdsSet (rawOption : List (String × Value)) : Nat :=
  (if thresholdIsSet rawOption "concurrent_requests_threshold" then 1 else 0)
  + (if thresholdIsSet rawOption "cpu_usage_threshold" then 1 else 0)
  + (if thresholdIsSet rawOption "memory_usage_threshold" then 1 else 0)

/-- Iteration `j` of the loop, entered at `selectTime CreateDomain j`, takes the retry case:
its interval ends before the deadline, or at the deadline with the tie going to the
retry case. -/
def retryCaseAt (CreateDomain : Nat → CallResult) (tie : Nat → Bool) (deadline j : Nat) :
    Prop :=
  selectTime CreateDomain j + DefaultContainerRetryInterval < deadline
  ∨ (selectTime CreateDomain j + DefaultContainerRetryInterval = deadline ∧ tie j = true)

/-- What a run of the retry wrapper with deadline `deadline` against the remote behaviour
`CreateDomain` looks like: the returned pair is the one of the last call made, every
earlier call was a retry-case call that failed with the transient DNS error, and the
last call is either a retry-case call that did not fail with the transient error, or
the timeout-case call, started at the deadline or, if the loop came back later, at
once. -/
def RunSpec (CreateDomain : Nat → CallResult) (tie : Nat → Bool) (deadline : Nat)
    (r : RetryRun) : Prop :=
  1 ≤ r.calls
  ∧ r.domain = (CreateDomain (r.calls - 1)).domain
  ∧ r.err = (CreateDomain (r.calls - 1)).err
  ∧ r.elapsed = r.lastStart + (CreateDomain (r.calls - 1)).duration
  ∧ (∀ j, j + 1 < r.calls →
      isContainerDNSResolveError (CreateDomain j).err = true
      ∧ retryCaseAt CreateDomain tie deadline j)
  ∧ (r.afterTimeout = false →
      r.lastStart = selectTime CreateDomain (r.calls - 1) + DefaultContainerRetryInterval
      ∧ retryCaseAt CreateDomain tie deadline (r.calls - 1)
      ∧ isContainerDNSResolveError (CreateDomain (r.calls - 1)).err = false)
  ∧ (r.afterTimeout = true →
      r.lastStart = max (selectTime CreateDomain (r.calls - 1)) deadline
      ∧ ¬ retryCaseAt CreateDomain tie deadline (r.calls - 1))

/-- Every value that `m` returns satisfies `P`. -/
def Holds {α : Type} (m : Except Failure α) (P : α → Prop) : Prop :=
  ∀ a, m = .ok a → P a

/-- The frame of an update request: a slot whose field is not reported changed is unset. -/
def UpdateFrame (d : ResourceData) (req : UpdateContainerRequest) : Prop :=
  (d.HasChange "environment_variables" = false → req.EnvironmentVariables = none)
  ∧ (d.HasChange "secret_environment_variables" = false → req.SecretEnvironmentVariables = none)
  ∧ (d.HasChange "tags" = false → req.Tags = none)
  ∧ (d.HasChange "min_scale" = false → req.MinScale = none)
  ∧ (d.HasChange "max_scale" = false → req.MaxScale = none)
  ∧ (d.HasChange "memory_limit" = false → req.MemoryLimit = none)
  ∧ (d.HasChange "cpu_limit" = false → req.CPULimit = none)
  ∧ (d.HasChange "timeout" = false → req.Timeout = none)
  ∧ (d.HasChange "privacy" = false → req.Privacy = "")
  ∧ (d.HasChange "description" = false → req.Description = none)
  ∧ (d.HasChange "registry_image" = false → req.RegistryImage = none)
  ∧ (d.HasChange "max_concurrency" = false → req.MaxConcurrency = none)
  ∧ (d.HasChange "protocol" = false → req.Protocol = "")
  ∧ (d.HasChange "port" = false → req.Port = none)
  ∧ (d.HasChange "http_option" = false → req.HTTPOption = "")
  ∧ (d.HasChange "sandbox" = false → req.Sandbox = "")
  ∧ (d.HasChange "health_check" = false → req.HealthCheck = none)
  ∧ (d.HasChange "scaling_option" = false → req.ScalingOption = none)
  ∧ (d.HasChange "local_storage_limit" = false → req.LocalStorageLimit = none)
  ∧ (d.HasChange "command" = false → req.Command = none)
  ∧ (d.HasChange "args" = false → req.Args = none)
  ∧ (d.HasChange "private_network_id" = false → req.PrivateNetworkID = none)
  ∧ (d.HasChange "deploy" = false → d.HasChange "registry_sha256" = false →
      req.Redeploy = none)

/-- The invariant of the builder: the frame, and the two slots given by the caller. -/
def UpdateInv (d : ResourceData) (region containerID : String)
    (req : UpdateContainerRequest) : Prop :=
  UpdateFrame d req ∧ req.Region = region ∧ req.ContainerID = containerID

/-! ## Entry points: diagnostics, resource state and the remote API -/

/-- The severity of a `diag.Diagnostic`. -/
inductive DiagSeverity where
  | Error
  | Warning
  deriving DecidableEq, Repr

/-- The engine's type `diag.Diagnostic`; `diag.Diagnostics` is a list of them, nil being
the empty list. -/
structure Diagnostic where
  Severity : DiagSeverity
  Summary : String
  Detail : String := ""
  deriving DecidableEq, Repr

/-- The functions of the packages `httperrors` and `regional`, the `Error()` method of Go
errors and the region extraction of the provider meta that the entry points call. They
are parameters of the model: every statement holds for arbitrary ones. -/
structure Externals where
  Is404 : GoError → Bool
  ErrorText : GoError → String
  ParseID : String → Except GoError (String × String)
  NewIDString : String → String → String
  ExtractRegion : ResourceData → Except GoError String

/-- The engine's `diag.FromErr(err)` for a non-nil error: one diagnostic of severity
`Error` whose summary is `err.Error()`. -/
def FromErr (x : Externals) (err : GoError) : List Diagnostic :=
  [{ Severity := .Error, Summary := x.ErrorText err }]

/-- The SDK type `container.Trigger`, with the fields the provider reads. -/
structure Trigger where
  ID : String
  Name : String
  Description : String
  Status : String
  ErrorMessage : Option String
  deriving DecidableEq, Repr

/-- The SDK constant `container.TriggerStatusError`. -/
def TriggerStatusError : String := "error"

/-- The SDK type `container.UpdateTriggerRequest`, with the fields the provider sets. -/
structure UpdateTriggerRequest where
  Region : String
  TriggerID : String
  Name : Option String := none
  Description : Option String := none
  deriving DecidableEq, Repr

/-- The SDK type `container.DeleteTriggerRequest`. -/
structure DeleteTriggerRequest where
  Region : String
  TriggerID : String
  deriving DecidableEq, Repr

/-- The SDK type `inference.Deployment`, with the fields the provider reads. -/
structure Deployment where
  ID : String
  Name : String
  Region : String
  ProjectID : String
  NodeType : String
  ModelName : String
  MinSize : Nat
  MaxSize : Nat
  Size : Nat
  Status : String
  deriving DecidableEq, Repr

/-- The SDK type `inference.EndpointSpec`: `Public` is a pointer to an empty struct,
`PrivateNetwork` a pointer to a struct holding the private network ID. -/
structure EndpointSpec where
  Public : Option Unit := none
  PrivateNetwork : Option String := none
  DisableAuth : Bool := false
  deriving DecidableEq, Repr

/-- The SDK type `inference.CreateDeploymentRequest`. -/
structure CreateDeploymentRequest where
  Region : String
  ProjectID : String
  Name : String
  NodeType : String
  ModelName : String
  Tags : List String
  AcceptEula : Option Bool := none
  MinSize : Option Nat := none
  MaxSize : Option Nat := none
  Endpoints : List EndpointSpec := []
  deriving DecidableEq, Repr

/-- A call that reaches the remote API, directly or through a waiter. -/
inductive APICall where
  | waitForContainerTrigger (region id : String)
  | UpdateTrigger (req : UpdateTriggerRequest)
  | DeleteTrigger (req : DeleteTriggerRequest)
  | waitForDeployment (region id : String)
  | CreateDeployment (req : CreateDeploymentRequest)
  deriving DecidableEq, Repr

/-- The behaviour of the remote side: what each call returns, given the calls made before
it. The waiters `waitForContainerTrigger` and `waitForDeployment` return the pair
`(resource, error)`; `UpdateTrigger` and `DeleteTrigger` are given by their error. -/
structure RemoteAPI where
  waitForContainerTrigger : List APICall → Except GoError Trigger
  UpdateTrigger : List APICall → UpdateTriggerRequest → Option GoError
  DeleteTrigger : List APICall → DeleteTriggerRequest → Option GoError
  waitForDeployment : List APICall → Except GoError Deployment
  CreateDeployment : List APICall → CreateDeploymentRequest → Except GoError Deployment

/-- The mutable side of an entry point run: the resource identifier (`d.Id()`, `d.SetId`),
the `d.Set` calls made so far, in order, and the calls made to the remote side, in
order. -/
structure World where
  Id : String
  Sets : List (String × Value)
  Calls : List APICall

/-- The engine's `d.SetId(id)`. -/
def World.SetId (w : World) (id : String) : World :=
  { w with Id := id }

/-- The engine's `d.Set(key, value)`. -/
def World.Set (w : World) (key : String) (value : Value) : World :=
  { w with Sets := w.Sets ++ [(key, value)] }

/-- The function `NewAPIWithRegionAndID`: the region and the ID of `regional.ParseID`, or
its error. -/
def NewAPIWithRegionAndID (x : Externals) (id : String) : Except GoError (String × String) :=
  match x.ParseID id with
  | .error err => .error err
  | .ok (region, id) => .ok (region, id)

/-- A call of the waiter `waitForContainerTrigger`: what the remote side answers, and the
world with the call recorded. -/
def waitForContainerTrigger (api : RemoteAPI) (region id : String) (w : World) :
    Except GoError Trigger × World :=
  (api.waitForContainerTrigger w.Calls,
    { w with Calls := w.Calls ++ [.waitForContainerTrigger region id] })

/-- A call of `api.UpdateTrigger`: its error, and the world with the call recorded. -/
def UpdateTrigger (api : RemoteAPI) (req : UpdateTriggerRequest) (w : World) :
    Option GoError × World :=
  (api.UpdateTrigger w.Calls req, { w with Calls := w.Calls ++ [.UpdateTrigger req] })

/-- A call of `api.DeleteTrigger`: its error, and the world with the call recorded. -/
def DeleteTrigger (api : RemoteAPI) (req : DeleteTriggerRequest) (w : World) :
    Option GoError × World :=
  (api.DeleteTrigger w.Calls req, { w with Calls := w.Calls ++ [.DeleteTrigger req] })

/-- A call of the waiter `waitForDeployment`. -/
def waitForDeployment (api : RemoteAPI) (region id : String) (w : World) :
    Except GoError Deployment × World :=
  (api.waitForDeployment w.Calls,
    { w with Calls := w.Calls ++ [.waitForDeployment region id] })

/-- A call of `api.CreateDeployment`. -/
def CreateDeployment (api : RemoteAPI) (req : CreateDeploymentRequest) (w : World) :
    Except GoError Deployment × World :=
  (api.CreateDeployment w.Calls req, { w with Calls := w.Calls ++ [.CreateDeployment req] })

/-- The function `ResourceContainerTriggerRead`: the diagnostics it returns and the world
it leaves. -/
def ResourceContainerTriggerRead (x : Externals) (api : RemoteAPI) (w : World) :
    List Diagnostic × World :=
  match NewAPIWithRegionAndID x w.Id with
  | .error err => (FromErr x err, w)
  | .ok (region, id) =>
    match waitForContainerTrigger api region id w with
    | (.error err, w) =>
      if x.Is404 err then
        let w := w.SetId ""
        ([], w)
      else (FromErr x err, w)
    | (.ok trigger, w) =>
      let w := w.Set "name" (.str trigger.Name)
      let w := w.Set "description" (.str trigger.Description)
      let diags : List Diagnostic := []
      let diags :=
        if trigger.Status = TriggerStatusError then
          let errMsg := ""
          let errMsg :=
            match trigger.ErrorMessage with
            | some m => m
            | none => errMsg
          diags ++ [{ Severity := .Warning, Summary := "Trigger in error state", Detail := errMsg }]
        else diags
      (diags, w)

/-- The function `ResourceContainerTriggerUpdate`. -/
def ResourceContainerTriggerUpdate (h : Helpers) (x : Externals) (api : RemoteAPI)
    (d : ResourceData) (w : World) : List Diagnostic × World :=
  match NewAPIWithRegionAndID x w.Id with
  | .error err => (FromErr x err, w)
  | .ok (region, id) =>
    match waitForContainerTrigger api region id w with
    | (.error err, w) =>
      if x.Is404 err then
        let w := w.SetId ""
        ([], w)
      else (FromErr x err, w)
    | (.ok trigger, w) =>
      let req : UpdateTriggerRequest := { Region := region, TriggerID := trigger.ID }
      let req :=
        if d.HasChange "name" then
          { req with Name := h.ExpandUpdatedStringPtr (d.Get "name") }
        else req
      let req :=
        if d.HasChange "description" then
          { req with Description := h.ExpandUpdatedStringPtr (d.Get "description") }
        else req
      match UpdateTrigger api req w with
      | (some err, w) => (FromErr x err, w)
      | (none, w) => ResourceContainerTriggerRead x api w

/-- The function `ResourceContainerTriggerDelete`. -/
def ResourceContainerTriggerDelete (x : Externals) (api : RemoteAPI) (w : World) :
    List Diagnostic × World :=
  match NewAPIWithRegionAndID x w.Id with
  | .error err => (FromErr x err, w)
  | .ok (region, id) =>
    match waitForContainerTrigger api region id w with
    | (.error err, w) => (FromErr x err, w)
    | (.ok _, w) =>
      match DeleteTrigger api { Region := region, TriggerID := id } w with
      | (some err, w) => (FromErr x err, w)
      | (none, w) =>
        match waitForContainerTrigger api region id w with
        | (.error err, w) =>
          if ¬ (x.Is404 err = true) then (FromErr x err, w)
          else ([], w)
        | (.ok _, w) => ([], w)

/-- The function `ResourceDeploymentRead`. The helper `NewAPIWithRegionAndID` of the
inference package is not among the source files; it is taken to be as the container
one: the region and the ID of `regional.ParseID`, or its error. -/
def ResourceDeploymentRead (x : Externals) (api : RemoteAPI) (w : World) :
    List Diagnostic × World :=
  match NewAPIWithRegionAndID x w.Id with
  | .error err => (FromErr x err, w)
  | .ok (region, id) =>
    match waitForDeployment api region id w with
    | (.error err, w) =>
      if x.Is404 err then
        let w := w.SetId ""
        ([], w)
      else (FromErr x err, w)
    | (.ok deployment, w) =>
      let w := w.Set "name" (.str deployment.Name)
      let w := w.Set "region" (.str deployment.Region)
      let w := w.Set "project_id" (.str deployment.ProjectID)
      let w := w.Set "node_type" (.str deployment.NodeType)
      let w := w.Set "model_name" (.str deployment.ModelName)
      let w := w.Set "min_size" (.int deployment.MinSize)
      let w := w.Set "max_size" (.int deployment.MaxSize)
      let w := w.Set "size" (.int deployment.Size)
      let w := w.Set "status" (.str deployment.Status)
      ([], w)

/-- The comma-ok type assertion `v.(bool)`. -/
def assertBool : Value → Option Bool
  | .bool b => some b
  | _ => none

/-- The helpers of the first structure together with the two more that the creation
builders call: `types.ExpandStrings` and `types.ExpandOrGenerateString`. -/
structure BuilderHelpers extends Helpers where
  ExpandStrings : Value → List String
  ExpandOrGenerateString : String → String → String

/-- The function `ResourceDeploymentCreate`: the diagnostics it returns and the world it
leaves, or a panic of one of its type assertions. The blocks follow the source in
order. -/
def ResourceDeploymentCreate (h : BuilderHelpers) (x : Externals) (api : RemoteAPI)
    (d : ResourceData) (w : World) : Except Failure (List Diagnostic × World) :=
  match x.ExtractRegion d with
  | .error err => pure (FromErr x err, w)
  | .ok region => do
    let endpoint : EndpointSpec := { Public := none, PrivateNetwork := none, DisableAuth := false }
    let projectID ← orPanic (assertString (d.Get "project_id"))
    let name ← orPanic (assertString (d.Get "name"))
    let nodeType ← orPanic (assertString (d.Get "node_type"))
    let modelName ← orPanic (assertString (d.Get "model_name"))
    let req : CreateDeploymentRequest :=
      { Region := region
        ProjectID := projectID
        Name := name
        NodeType := nodeType
        ModelName := modelName
        Tags := h.ExpandStrings (d.Get "tags") }
    let endpoint ←
      (if (d.GetOk "endpoints").2 then do
        let endpoint ←
          (match d.Get "endpoints.0.public_endpoint" with
          | .null => pure endpoint
          | .bool publicEndpoint =>
            pure (if publicEndpoint then { endpoint with Public := some () } else endpoint)
          | _ => throw .panicked)
        let endpoint ←
          (match d.Get "endpoints.0.private_endpoint" with
          | .str privateEndpoint =>
            pure (if privateEndpoint ≠ "" then
              { endpoint with PrivateNetwork := some privateEndpoint } else endpoint)
          | _ => throw .panicked)
        pure endpoint
      else pure endpoint)
    let req ←
      (if (d.GetOk "max_size").2 then do
        let maxSize ← orPanic (assertInt (d.GetOk "max_size").1)
        pure { req with MaxSize := some (uint32 maxSize) }
      else pure req)
    let req ←
      (if (d.GetOk "min_size").2 then do
        let minSize ← orPanic (assertInt (d.GetOk "min_size").1)
        pure { req with MaxSize := some (uint32 minSize) }
      else pure req)
    let req := { req with Endpoints := [endpoint] }
    let req ←
      (if (d.GetOk "accept_eula").2 then do
        let isAcceptingEula ← orPanic (assertBool (d.GetOk "accept_eula").1)
        pure { req with AcceptEula := some isAcceptingEula }
      else pure req)
    match CreateDeployment api req w with
    | (.error err, w) => pure (FromErr x err, w)
    | (.ok deployment, w) =>
      let w := w.SetId (x.NewIDString region deployment.ID)
      match waitForDeployment api region deployment.ID w with
      | (.error err, w) => pure (FromErr x err, w)
      | (.ok _, w) => pure (ResourceDeploymentRead x api w)

/-- The SDK type `container.CreateContainerRequest`. Pointer fields are `Option`s; the
slices `SecretEnvironmentVariables`, `Tags`, `Command` and `Args` are lists, nil being
the empty list. -/
structure CreateContainerRequest where
  Region : String
  NamespaceID : String
  Name : String
  Privacy : String
  Protocol : String
  HTTPOption : String
  EnvironmentVariables : Option (List (String × String)) := none
  SecretEnvironmentVariables : List Secret := []
  MinScale : Option Nat := none
  MaxScale : Option Nat := none
  MemoryLimit : Option Nat := none
  CPULimit : Option Nat := none
  Timeout : Option ScwDuration := none
  Port : Option Nat := none
  Description : Option String := none
  RegistryImage : Option String := none
  MaxConcurrency : Option Nat := none
  Sandbox : String := ""
  HealthCheck : Option ContainerHealthCheckSpec := none
  ScalingOption : Option ContainerScalingOption := none
  LocalStorageLimit : Option Nat := none
  Tags : List String := []
  Command : List String := []
  Args : List String := []
  PrivateNetworkID : Option String := none
  deriving DecidableEq, Repr

/-- The function `setCreateContainerRequest`: the returned pair is `(req, nil)` on `.ok req`
and `(nil, err)` on `.error (.returned err)`. The blocks follow the source in order. -/
def setCreateContainerRequest (x : BuilderHelpers) (d : ResourceData) (region : String) :
    Except Failure CreateContainerRequest := do
  -- required
  let nameRaw := d.Get "name"
  let namespaceID := d.Get "namespace_id"
  let nameString ← orPanic (assertString nameRaw)
  let name := x.ExpandOrGenerateString nameString "co"
  let privacyType := d.Get "privacy"
  let protocol := d.Get "protocol"
  let httpOption := d.Get "http_option"
  let privacyString ← orPanic (assertString privacyType)
  let protocolString ← orPanic (x.ExpandStringPtr protocol)
  let httpOptionString ← orPanic (assertString httpOption)
  let req : CreateContainerRequest :=
    { Region := region
      NamespaceID := x.ExpandID namespaceID
      Name := name
      Privacy := privacyString
      Protocol := protocolString
      HTTPOption := httpOptionString }
  -- optional
  let req ←
    (if (d.GetOk "environment_variables").2 then
      pure { req with
        EnvironmentVariables :=
          x.ExpandMapPtrStringString (d.GetOk "environment_variables").1 }
    else pure req)
  let req ←
    (if (d.GetOk "secret_environment_variables").2 then do
      let secrets ← expandContainerSecrets x.toHelpers (d.GetOk "secret_environment_variables").1
      pure { req with SecretEnvironmentVariables := secrets }
    else pure req)
  let req ←
    (if (d.GetOk "min_scale").2 then do
      let v ← orPanic (assertInt (d.GetOk "min_scale").1)
      pure { req with MinScale := some (uint32 v) }
    else pure req)
  let req ←
    (if (d.GetOk "max_scale").2 then do
      let v ← orPanic (assertInt (d.GetOk "max_scale").1)
      pure { req with MaxScale := some (uint32 v) }
    else pure req)
  let req ←
    (if (d.GetOk "memory_limit").2 then do
      let v ← orPanic (assertInt (d.GetOk "memory_limit").1)
      pure { req with MemoryLimit := some (uint32 v) }
    else pure req)
  let req ←
    (if (d.GetOk "cpu_limit").2 then do
      let v ← orPanic (assertInt (d.GetOk "cpu_limit").1)
      pure { req with CPULimit := some (uint32 v) }
    else pure req)
  let req ←
    (if (d.GetOk "timeout").2 then do
      let timeInt ← orPanic (assertInt (d.GetOk "timeout").1)
      pure { req with Timeout := some { Seconds := timeInt, Nanos := 0 } }
    else pure req)
  let req ←
    (if (d.GetOk "port").2 then do
      let v ← orPanic (assertInt (d.GetOk "port").1)
      pure { req with Port := some (uint32 v) }
    else pure req)
  let req ←
    (if (d.GetOk "description").2 then
      pure { req with Description := x.ExpandStringPtr (d.GetOk "description").1 }
    else pure req)
  let req ←
    (if (d.GetOk "registry_image").2 then
      pure { req with RegistryImage := x.ExpandStringPtr (d.GetOk "registry_image").1 }
    else pure req)
  let req ←
    (if (d.GetOk "max_concurrency").2 then do
      let v ← orPanic (assertInt (d.GetOk "max_concurrency").1)
      pure { req with MaxConcurrency := some (uint32 v) }
    else pure req)
  let req ←
    (if (d.GetOk "sandbox").2 then do
      let v ← orPanic (assertString (d.GetOk "sandbox").1)
      pure { req with Sandbox := v }
    else pure req)
  let req ←
    (if (d.GetOk "health_check").2 then do
      match ← expandHealthCheck x.toHelpers (d.GetOk "health_check").1 with
      | (_, some errExpandHealthCheck) => throw (.returned errExpandHealthCheck)
      | (healthCheckReq, none) => pure { req with HealthCheck := healthCheckReq }
    else pure req)
  let req ←
    (if (d.GetOk "scaling_option").2 then
      match expandScalingOptions (d.GetOk "scaling_option").1 with
      | (_, some err) => throw (.returned err)
      | (scalingOptionReq, none) => pure { req with ScalingOption := scalingOptionReq }
    else pure req)
  let req ←
    (if (d.GetOk "local_storage_limit").2 then do
      let v ← orPanic (assertInt (d.GetOk "local_storage_limit").1)
      pure { req with LocalStorageLimit := some (uint32 v) }
    else pure req)
  let req ←
    (if (d.GetOk "tags").2 then
      pure { req with Tags := x.ExpandStrings (d.GetOk "tags").1 }
    else pure req)
  let req ←
    (if (d.GetOk "command").2 then
      pure { req with Command := x.ExpandStrings (d.GetOk "command").1 }
    else pure req)
  let req ←
    (if (d.GetOk "args").2 then
      pure { req with Args := x.ExpandStrings (d.GetOk "args").1 }
    else pure req)
  let req ←
    (if (d.GetOk "private_network_id").2 then do
      let pnID ← orPanic (assertString (d.GetOk "private_network_id").1)
      pure { req with PrivateNetworkID := x.ExpandStringPtr (.str (x.ExpandID (.str pnID))) }
    else pure req)
  return req

/-! ## The poll-until-ready waiter -/

/-- Modelled from the spec: what one poll of the fetch-by-id operation reports, in the
classes of section 4.2 (the waiters `waitForContainerTrigger` and `waitForDeployment`
are not among the source files): the resource is pending, ready or in error, or it is
deleted, which the fetch reports as a not-found error. -/
inductive PollResult (α : Type) where
  | pending
  | ready (resource : α)
  | error (resource : α)
  | deleted (notFound : GoError)

/-- Modelled from the spec: what the waiter surfaces (section 4.2): the resource on `ready`
or `error`, the distinguished not-found condition on `deleted`, the timeout condition
on timeout. -/
inductive WaitOutcome (α : Type) where
  | returned (resource : α) (polls : Nat)
  | notFound (err : GoError)
  | timedOut

/-- Modelled from the spec: the error of the timeout condition. -/
def waitTimeoutError : GoError := .errorString "timeout while waiting for the resource"

/-- Modelled from the spec: the Go pair `(resource, error)` that the callers of the waiter
receive: no error with the resource, the not-found error of the fetch for the
not-found condition, the timeout error for the timeout condition. -/
def WaitOutcome.toPair {α : Type} : WaitOutcome α → Except GoError α
  | .returned resource _ => .ok resource
  | .notFound err => .error err
  | .timedOut => .error waitTimeoutError

/-- Modelled from the spec: the poll loop of the waiter (section 4.2), entered at time `now`
with `n` polls made: poll the fetch-by-id operation; return on `ready` or `error`;
surface the not-found condition on `deleted`; on `pending` wait one interval and poll
again, unless the timeout elapses first, which surfaces the timeout condition. `fuel`
bounds the number of polls. -/
def waitLoop {α : Type} (fetch : Nat → PollResult α) (interval timeout : Nat) :
    Nat → Nat → Nat → Option (WaitOutcome α)
  | 0, _, _ => none
  | fuel + 1, now, n =>
    match fetch n with
    | .ready resource => some (.returned resource (n + 1))
    | .error resource => some (.returned resource (n + 1))
    | .deleted err => some (.notFound err)
    | .pending =>
      if now + interval < timeout then waitLoop fetch interval timeout fuel (now + interval) (n + 1)
      else some .timedOut

/-- Modelled from the spec: the poll-until-ready waiter (`waitForContainerTrigger`,
`waitForDeployment`) for a fetch operation, a poll interval and a timeout, with one
poll per interval that fits before the timeout, plus one. -/
def waitForResource {α : Type} (fetch : Nat → PollResult α) (interval timeout : Nat) :
    Option (WaitOutcome α) :=
  waitLoop fetch interval timeout (timeout / interval + 1) 0 0

/-! ## Predicates and sample inputs for the entry points -/

/-- The error `e` is, or wraps (through a chain of `Unwrap`), the error `target`. -/
inductive Wraps : GoError → GoError → Prop where
  | refl (e : GoError) : Wraps e e
  | step (text : String) (inner target : GoError) :
      Wraps inner target → Wraps (.wrapped text inner) target

/-- The computation `m` fails by a panic only: it never returns a Go error. -/
def OnlyPanics {α : Type} (m : Except Failure α) : Prop :=
  ∀ e, m = .error e → e = .panicked

/-- The builder stops without a request: with the error `err`, with the error that
`expandHealthCheck` returns for the value `healthCheck` (when `healthCheckActive`), or
with a panic. -/
def StopsWith {α : Type} (x : Helpers) (err : GoError) (healthCheckActive : Bool)
    (healthCheck : Value) (res : Except Failure α) : Prop :=
  res = .error (.returned err)
  ∨ res = .error .panicked
  ∨ (healthCheckActive = true
      ∧ ∃ spec e, expandHealthCheck x healthCheck = .ok (spec, some e)
          ∧ res = .error (.returned e))

/-- An instance of the externals: a response error with status 404 is not-found, the text
of an error is its message, and the one identifier known is `fr-par/t-1`. -/
def sampleExternals : Externals where
  Is404 := fun err =>
    match err with
    | .responseError code _ => code == 404
    | _ => false
  ErrorText := fun err =>
    match err with
    | .responseError _ message => message
    | .errorString text => text
    | .wrapped text _ => text
  ParseID := fun id =>
    if id = "fr-par/t-1" then .ok ("fr-par", "t-1")
    else .error (.errorString "cannot parse the identifier")
  NewIDString := fun region id => region ++ "/" ++ id
  ExtractRegion := fun _ => .ok "fr-par"

/-- An instance of the creation helpers, over `sampleHelpers`. -/
def sampleBuilderHelpers : BuilderHelpers where
  toHelpers := sampleHelpers
  ExpandStrings := fun v =>
    match v with
    | .list items => items.filterMap assertString
    | _ => []
  ExpandOrGenerateString := fun s pre => if s = "" then pre ++ "-generated" else s

/-- A trigger that is ready. -/
def sampleTrigger : Trigger :=
  { ID := "t-1", Name := "on-message", Description := "", Status := "active",
    ErrorMessage := none }

/-- The not-found error of the remote API. -/
def notFoundError : GoError := .responseError 404 "resource is not found"

/-- A remote side on which the trigger is already gone: every wait reports not-found. -/
def goneAPI : RemoteAPI where
  waitForContainerTrigger := fun _ => .error notFoundError
  UpdateTrigger := fun _ _ => none
  DeleteTrigger := fun _ _ => none
  waitForDeployment := fun _ => .error notFoundError
  CreateDeployment := fun _ _ => .error (.responseError 500 "internal error")

/-- A remote side on which the trigger exists until it is deleted: the waits made before
`DeleteTrigger` return the trigger, the waits made after it report not-found. -/
def liveAPI : RemoteAPI where
  waitForContainerTrigger := fun calls =>
    if calls.any (fun c => match c with | .DeleteTrigger _ => true | _ => false) then
      .error notFoundError
    else .ok sampleTrigger
  UpdateTrigger := fun _ _ => none
  DeleteTrigger := fun _ _ => none
  waitForDeployment := fun _ => .error notFoundError
  CreateDeployment := fun _ _ => .error (.responseError 500 "internal error")

/-- A world holding the trigger `fr-par/t-1`, before any call. -/
def sampleWorld : World :=
  { Id := "fr-par/t-1", Sets := [], Calls := [] }

/-- Resource data in which only `description` changed. -/
def sampleDescriptionChanged : ResourceData where
  HasChange := fun key => key == "description"
  Get := fun key => if key == "description" then .str "nightly" else .null
  GetOld := fun _ => .null

/-- Resource data of a deployment that declares `min_size = 2` and `max_size = 5`. -/
def sampleSizes : ResourceData where
  HasChange := fun _ => false
  Get := fun key =>
    if key == "project_id" then .str "p-1"
    else if key == "name" then .str "llm"
    else if key == "node_type" then .str "L4"
    else if key == "model_name" then .str "llama"
    else if key == "min_size" then .int 2
    else if key == "max_size" then .int 5
    else .null
  GetOld := fun _ => .null
  GetOk := fun key =>
    if key == "min_size" then (.int 2, true)
    else if key == "max_size" then (.int 5, true)
    else (.null, false)

/-- Resource data in which `health_check` and `scaling_option` are both set and changed:
the health check has an interval that is no duration, the scaling option has two
thresholds. -/
def sampleTwoFailures : ResourceData where
  HasChange := fun key => key == "health_check" || key == "scaling_option"
  Get := fun key =>
    if key == "health_check" then
      .set [.map [("failure_threshold", .int 3), ("interval", .str "soon")]]
    else if key == "scaling_option" then
      .set [.map [("concurrent_requests_threshold", .int 80), ("cpu_usage_threshold", .int 70)]]
    else if key == "name" then .str "web"
    else if key == "privacy" then .str "public"
    else if key == "protocol" then .str "http1"
    else if key == "http_option" then .str "enabled"
    else .null
  GetOld := fun _ => .null
  GetOk := fun key =>
    if key == "health_check" then
      (.set [.map [("failure_threshold", .int 3), ("interval", .str "soon")]], true)
    else if key == "scaling_option" then
      (.set [.map [("concurrent_requests_threshold", .int 80), ("cpu_usage_threshold", .int 70)]],
        true)
    else (.null, false)

/-- Resource data in which only `scaling_option` is set and changed, with two thresholds. -/
def sampleTwoThresholds : ResourceData where
  HasChange := fun key => key == "scaling_option"
  Get := fun key =>
    if key == "scaling_option" then
      .set [.map [("concurrent_requests_threshold", .int 80), ("cpu_usage_threshold", .int 70)]]
    else if key == "name" then .str "web"
    else if key == "privacy" then .str "public"
    else if key == "protocol" then .str "http1"
    else if key == "http_option" then .str "enabled"
    else .null
  GetOld := fun _ => .null
  GetOk := fun key =>
    if key == "scaling_option" then
      (.set [.map [("concurrent_requests_threshold", .int 80), ("cpu_usage_threshold", .int 70)]],
        true)
    else (.null, false)

/-! ## The DocumentDB private network endpoint -/

/-- The SDK type `scw.IPNet`, given by its CIDR text. -/
structure IPNet where
  CIDR : String
  deriving DecidableEq, Repr

/-- The SDK type `documentdb.EndpointSpecPrivateNetwork`: `IpamConfig` is a pointer to an
empty struct. -/
structure documentdb.EndpointSpecPrivateNetwork where
  PrivateNetworkID : String := ""
  ServiceIP : Option IPNet := none
  IpamConfig : Option Unit := none
  deriving DecidableEq, Repr

/-- The SDK type `documentdb.EndpointSpec`, with the field the provider sets. -/
structure documentdb.EndpointSpec where
  PrivateNetwork : Option documentdb.EndpointSpecPrivateNetwork := none
  deriving DecidableEq, Repr

/-- The SDK type `documentdb.CreateEndpointRequest`. -/
structure documentdb.CreateEndpointRequest where
  Region : String
  InstanceID : String
  EndpointSpec : Option documentdb.EndpointSpec
  deriving DecidableEq, Repr

/-- The SDK type `documentdb.EndpointPrivateNetworkDetails`. -/
structure documentdb.EndpointPrivateNetworkDetails where
  PrivateNetworkID : String
  ServiceIP : IPNet
  Zone : String
  deriving DecidableEq, Repr

/-- The SDK type `documentdb.Endpoint`, with the fields the provider reads. -/
structure documentdb.Endpoint where
  ID : String
  IP : Option String
  Port : Nat
  Name : Option String
  Hostname : Option String
  PrivateNetwork : Option documentdb.EndpointPrivateNetworkDetails
  deriving DecidableEq, Repr

/-- A call that reaches the DocumentDB API, directly or through the waiter. -/
inductive documentdb.Call where
  | waitForDocumentDBInstance (region instanceID : String)
  | CreateEndpoint (req : documentdb.CreateEndpointRequest)
  | GetEndpoint (region endpointID : String)
  deriving DecidableEq, Repr

/-- The behaviour of the DocumentDB side: what each call returns, given the calls made
before it. The waiter `waitForDocumentDBInstance` is given by its error. -/
structure documentdb.API where
  waitForDocumentDBInstance : List documentdb.Call → Option GoError
  CreateEndpoint : List documentdb.Call → documentdb.CreateEndpointRequest →
    Except GoError documentdb.Endpoint
  GetEndpoint : List documentdb.Call → String → String → Except GoError documentdb.Endpoint

/-- The mutable side of a run of a DocumentDB entry point: the resource identifier, the
`d.Set` calls that succeeded, in order, and the calls made to the remote side. -/
structure documentdb.World where
  Id : String
  Sets : List (String × Value)
  Calls : List documentdb.Call

/-- The helpers of the package `types`, the `%T` verb of `fmt` and the error of `d.Set`
that the DocumentDB entry points use. They are parameters of the model. -/
structure documentdb.Helpers where
  ExpandIPNet : String → Except GoError IPNet
  FlattenIPNet : IPNet → Except GoError String
  FlattenIPPtr : Option String → Value
  TypeName : Value → String
  SetError : String → Value → Option GoError

/-- The engine's `diag.Errorf`: one diagnostic of severity `Error` with the formatted
text as summary. -/
def Errorf (text : String) : List Diagnostic :=
  [{ Severity := .Error, Summary := text }]

/-- A nullable string as a Go `any`. -/
def stringPtrValue : Option String → Value
  | some s => .str s
  | none => .null

/-- The engine's `d.SetId(id)`. -/
def documentdb.World.SetId (w : documentdb.World) (id : String) : documentdb.World :=
  { w with Id := id }

/-- The engine's `d.Set(key, value)`, when it succeeds. -/
def documentdb.World.Set (w : documentdb.World) (key : String) (value : Value) :
    documentdb.World :=
  { w with Sets := w.Sets ++ [(key, value)] }

/-- A call of the waiter `waitForDocumentDBInstance`: its error, and the world with the call
recorded. -/
def waitForDocumentDBInstance (api : documentdb.API) (region instanceID : String)
    (w : documentdb.World) : Option GoError × documentdb.World :=
  (api.waitForDocumentDBInstance w.Calls,
    { w with Calls := w.Calls ++ [.waitForDocumentDBInstance region instanceID] })

/-- A call of `api.CreateEndpoint`: what it returns, and the world with the call
recorded. -/
def documentdb.CreateEndpoint (api : documentdb.API) (req : documentdb.CreateEndpointRequest)
    (w : documentdb.World) : Except GoError documentdb.Endpoint × documentdb.World :=
  (api.CreateEndpoint w.Calls req, { w with Calls := w.Calls ++ [.CreateEndpoint req] })

/-- A call of `api.GetEndpoint`: what it returns, and the world with the call recorded. -/
def documentdb.GetEndpoint (api : documentdb.API) (region endpointID : String)
    (w : documentdb.World) : Except GoError documentdb.Endpoint × documentdb.World :=
  (api.GetEndpoint w.Calls region endpointID,
    { w with Calls := w.Calls ++ [.GetEndpoint region endpointID] })

/-- The function `resourceDocumentDBInstanceEndpointRead`: the diagnostics it returns, or a
panic, and the world it leaves. The helper `NewAPIWithRegionAndID` of the package is
not among the source files; it is taken to be as the container one. -/
def resourceDocumentDBInstanceEndpointRead (t : documentdb.Helpers) (x : Externals)
    (api : documentdb.API) (w : documentdb.World) :
    Except Failure (List Diagnostic) × documentdb.World :=
  match NewAPIWithRegionAndID x w.Id with
  | .error err => (.ok (FromErr x err), w)
  | .ok (region, id) =>
    match documentdb.GetEndpoint api region id w with
    | (.error err, w) =>
      if x.Is404 err then
        let w := w.SetId ""
        (.ok [], w)
      else (.ok (FromErr x err), w)
    | (.ok endpoint, w) =>
      match endpoint.PrivateNetwork with
      | none => (.error .panicked, w)
      | some details =>
        let pnID := x.NewIDString region details.PrivateNetworkID
        match t.FlattenIPNet details.ServiceIP with
        | .error err => (.ok (FromErr x err), w)
        | .ok serviceIP =>
          let privateNetwork : Value :=
            .map [("id", .str pnID),
                  ("ip_net", .str serviceIP),
                  ("ip", t.FlattenIPPtr endpoint.IP),
                  ("port", .int endpoint.Port),
                  ("name", stringPtrValue endpoint.Name),
                  ("hostname", stringPtrValue endpoint.Hostname),
                  ("zone", .str details.Zone)]
          match t.SetError "private_network" (.list [privateNetwork]) with
          | some err => (.ok (FromErr x err), w)
          | none =>
            let w := w.Set "private_network" (.list [privateNetwork])
            let w := w.Set "region" (.str region)
            (.ok [], w)

/-- The function `resourceDocumentDBInstanceEndpointCreate`: the diagnostics it returns, or a
panic, and the world it leaves. The helper `documentDBAPIWithRegion` of the package is
not among the source files; it is taken to return the region that the provider meta
gives for the resource data, or its error. -/
def resourceDocumentDBInstanceEndpointCreate (h : Helpers) (t : documentdb.Helpers)
    (x : Externals) (api : documentdb.API) (d : ResourceData) (w : documentdb.World) :
    Except Failure (List Diagnostic) × documentdb.World :=
  match x.ExtractRegion d with
  | .error err => (.ok (FromErr x err), w)
  | .ok region =>
    let instanceID := h.ExpandID (d.Get "instance_id")
    let privateNetworkRaw := d.Get "private_network"
    match privateNetworkRaw with
    | .list (.map privateNetworkMap :: _) =>
      let endpointSpecPN : documentdb.EndpointSpecPrivateNetwork := {}
      let createEndpointRequest : documentdb.CreateEndpointRequest :=
        { Region := region, InstanceID := instanceID, EndpointSpec := some {} }
      match assertString (mapIndex privateNetworkMap "id") with
      | none => (.error .panicked, w)
      | some id =>
        let endpointSpecPN := { endpointSpecPN with PrivateNetworkID := h.ExpandID (.str id) }
        match assertString (mapIndex privateNetworkMap "ip_net") with
        | none => (.error .panicked, w)
        | some ipNet =>
          let expanded : Except GoError documentdb.EndpointSpecPrivateNetwork :=
            if ipNet.length > 0 then
              match t.ExpandIPNet ipNet with
              | .error err => .error err
              | .ok ip => .ok { endpointSpecPN with ServiceIP := some ip }
            else .ok { endpointSpecPN with IpamConfig := some () }
          match expanded with
          | .error err => (.ok (FromErr x err), w)
          | .ok endpointSpecPN =>
            let createEndpointRequest :=
              { createEndpointRequest with
                EndpointSpec := some { PrivateNetwork := some endpointSpecPN } }
            match waitForDocumentDBInstance api region instanceID w with
            | (some err, w) =>
              if x.Is404 err then
                let w := w.SetId ""
                (.ok [], w)
              else (.ok (FromErr x err), w)
            | (none, w) =>
              match documentdb.CreateEndpoint api createEndpointRequest w with
              | (.error err, w) => (.ok (FromErr x err), w)
              | (.ok endpoint, w) =>
                match waitForDocumentDBInstance api region instanceID w with
                | (some err, w) =>
                  if x.Is404 err then
                    let w := w.SetId ""
                    (.ok [], w)
                  else (.ok (FromErr x err), w)
                | (none, w) =>
                  let w := w.SetId (x.NewIDString region endpoint.ID)
                  resourceDocumentDBInstanceEndpointRead t x api w
    | .list (other :: _) =>
      (.ok (Errorf ("expected first element of private_network to be a map, got "
        ++ t.TypeName other)), w)
    | _ =>
      (.ok (Errorf ("expected private_network to be a non-empty list, got "
        ++ t.TypeName privateNetworkRaw)), w)

/-! ## Predicates and sample inputs for the last statements -/

/-- The slot that a threshold of a scaling-option block should fill: its value, converted
to `uint32`, when the block holds a non-zero `int` under the key, nothing otherwise. -/
def thresholdSlot (rawOption : List (String × Value)) (key : String) : Option Nat :=
  match assertInt (mapIndex rawOption key) with
  | some v => if v ≠ 0 then some (uint32 v) else none
  | none => none

/-- A trigger in error state, with a message. -/
def failedTrigger : Trigger :=
  { ID := "t-1", Name := "on-message", Description := "nightly", Status := "error",
    ErrorMessage := some "queue not found" }

/-- A remote side whose waiter returns the trigger in error state. -/
def failedTriggerAPI : RemoteAPI where
  waitForContainerTrigger := fun _ => .ok failedTrigger
  UpdateTrigger := fun _ _ => none
  DeleteTrigger := fun _ _ => none
  waitForDeployment := fun _ => .error notFoundError
  CreateDeployment := fun _ _ => .error (.responseError 500 "internal error")

/-- An instance of the DocumentDB helpers: a CIDR text is accepted when it holds a slash. -/
def sampleDocumentDBHelpers : documentdb.Helpers where
  ExpandIPNet := fun s =>
    if s.toList.contains '/' then .ok { CIDR := s }
    else .error (.errorString "invalid CIDR address")
  FlattenIPNet := fun ip => .ok ip.CIDR
  FlattenIPPtr := stringPtrValue
  TypeName := fun v =>
    match v with
    | .null => "<nil>"
    | .int _ => "int"
    | .str _ => "string"
    | .bool _ => "bool"
    | .list _ => "[]interface {}"
    | .set _ => "*schema.Set"
    | .map _ => "map[string]interface {}"
  SetError := fun _ _ => none

/-- A DocumentDB side on which the waits and `CreateEndpoint` succeed and the endpoint is
not found afterwards. -/
def sampleDocumentDBAPI : documentdb.API where
  waitForDocumentDBInstance := fun _ => none
  CreateEndpoint := fun _ _ =>
    .ok { ID := "e-1", IP := none, Port := 5432, Name := none, Hostname := none,
          PrivateNetwork := none }
  GetEndpoint := fun _ _ _ => .error notFoundError

/-- Resource data of an endpoint with the given `private_network` value. -/
def sampleEndpointData (privateNetwork : Value) : ResourceData where
  HasChange := fun _ => false
  Get := fun key =>
    if key == "instance_id" then .str "i-1"
    else if key == "private_network" then privateNetwork
    else .null
  GetOld := fun _ => .null

/-- An instance of the externals for the endpoint `fr-par/e-1`. -/
def sampleEndpointExternals : Externals where
  Is404 := sampleExternals.Is404
  ErrorText := sampleExternals.ErrorText
  ParseID := fun id =>
    if id = "fr-par/e-1" then .ok ("fr-par", "e-1")
    else .error (.errorString "cannot parse the identifier")
  NewIDString := fun region id => region ++ "/" ++ id
  ExtractRegion := fun _ => .ok "fr-par"

/-- A world without identifier, before any call. -/
def emptyEndpointWorld : documentdb.World :=
  { Id := "", Sets := [], Calls := [] }

/-! ### Auxiliary facts about the two loops -/

theorem createLoop_eq (newEnv acc : List Secret) :
    newEnv.foldl
      (fun toPatch env =>
        match env.Value with
        | some v => if HasPrefix v "$argon2id" then toPatch else toPatch ++ [env]
        | none => toPatch ++ [env]) acc
      = acc ++ newEnv.filter (fun e => !isHashedPlaceholder e.Value) := by
  induction newEnv generalizing acc with
  | nil => simp
  | cons e es ih =>
    rw [List.foldl_cons, ih]
    rcases e with ⟨k, v⟩
    cases v with
    | none => simp [isHashedPlaceholder]
    | some s =>
      by_cases h : HasPrefix s "$argon2id" = true
      · simp [isHashedPlaceholder, hashedMarker, h]
      · simp [isHashedPlaceholder, hashedMarker, h]

theorem deleteLoop_eq (newEnv oldEnv acc : List Secret) :
    oldEnv.foldl
      (fun toPatch env =>
        if !containsKey newEnv env.Key then toPatch ++ [{ Key := env.Key, Value := none }]
        else toPatch) acc
      = acc ++ (oldEnv.filter (fun e => !containsKey newEnv e.Key)).map
          (fun e => ({ Key := e.Key, Value := none } : Secret)) := by
  induction oldEnv generalizing acc with
  | nil => simp
  | cons e es ih =>
    rw [List.foldl_cons, ih]
    by_cases h : containsKey newEnv e.Key = true
    · simp [h]
    · simp [h]

/-- The output is the unhashed entries of `newEnv` followed by one deletion per entry of
`oldEnv` whose key is absent from `newEnv`. -/
theorem filterSecretEnvsToPatch_eq (oldEnv newEnv : List Secret) :
    filterSecretEnvsToPatch oldEnv newEnv
      = newEnv.filter (fun e => !isHashedPlaceholder e.Value)
        ++ (oldEnv.filter (fun e => !containsKey newEnv e.Key)).map
            (fun e => ({ Key := e.Key, Value := none } : Secret)) := by
  unfold filterSecretEnvsToPatch
  simp only []
  rw [createLoop_eq, deleteLoop_eq]
  simp

theorem containsKey_iff (newEnv : List Secret) (key : String) :
    containsKey newEnv key = true ↔ ∃ s ∈ newEnv, s.Key = key := by
  simp [containsKey]

theorem mem_filterSecretEnvsToPatch (oldEnv newEnv : List Secret) (e : Secret) :
    e ∈ filterSecretEnvsToPatch oldEnv newEnv ↔
      (e ∈ newEnv ∧ isHashedPlaceholder e.Value = false)
      ∨ (e.Value = none ∧ (∃ o ∈ oldEnv, o.Key = e.Key) ∧ ∀ s ∈ newEnv, s.Key ≠ e.Key) := by
  rw [filterSecretEnvsToPatch_eq]
  simp only [List.mem_append, List.mem_filter, List.mem_map, Bool.not_eq_true']
  constructor
  · rintro (h | ⟨o, ⟨ho, hk⟩, rfl⟩)
    · exact Or.inl h
    · refine Or.inr ⟨rfl, ⟨o, ho, rfl⟩, ?_⟩
      intro s hs hsk
      have : containsKey newEnv o.Key = true := (containsKey_iff _ _).2 ⟨s, hs, hsk⟩
      simp [this] at hk
  · rintro (h | ⟨hv, ⟨o, ho, hk⟩, hn⟩)
    · exact Or.inl h
    · refine Or.inr ⟨o, ⟨ho, ?_⟩, ?_⟩
      · cases hc : containsKey newEnv o.Key with
        | false => rfl
        | true =>
          obtain ⟨s, hs, hsk⟩ := (containsKey_iff _ _).1 hc
          exact absurd (hsk.trans hk) (hn s hs)
      · rcases e with ⟨k, v⟩
        simp only at hv hk
        subst hv
        subst hk
        rfl

theorem deletions_self (m : List Secret) :
    m.filter (fun e => !containsKey m e.Key) = [] := by
  rw [List.filter_eq_nil_iff]
  intro e he
  have : containsKey m e.Key = true := (containsKey_iff _ _).2 ⟨e, he, rfl⟩
  simp [this]

/-! ### Partial correctness in the `Except` monad -/

theorem holds_pure {α : Type} (a : α) (P : α → Prop) (h : P a) :
    Holds (pure a : Except Failure α) P := by
  intro b hb
  cases hb
  exact h

theorem holds_throw {α : Type} (e : Failure) (P : α → Prop) :
    Holds (throw e : Except Failure α) P := by
  intro b hb
  cases hb

theorem holds_bind {α β : Type} (m : Except Failure α) (f : α → Except Failure β)
    (P : α → Prop) (Q : β → Prop) (hm : Holds m P) (hf : ∀ a, P a → Holds (f a) Q) :
    Holds (m >>= f) Q := by
  intro b hb
  cases m with
  | error e => cases hb
  | ok a => exact hf a (hm a rfl) b hb

theorem holds_bind_any {α β : Type} (m : Except Failure α) (f : α → Except Failure β)
    (Q : β → Prop) (hf : ∀ a, Holds (f a) Q) : Holds (m >>= f) Q :=
  holds_bind m f (fun _ => True) Q (fun _ _ => trivial) (fun a _ => hf a)

theorem holds_ite {α : Type} (c : Bool) (m₁ m₂ : Except Failure α) (P : α → Prop)
    (h₁ : c = true → Holds m₁ P) (h₂ : Holds m₂ P) :
    Holds (if c = true then m₁ else m₂) P := by
  cases c with
  | true => simpa using h₁ rfl
  | false => simpa using h₂

theorem setUpdateContainerRequest_frame (x : Helpers) (d : ResourceData)
    (region containerID : String) :
    Holds (setUpdateContainerRequest x d region containerID)
      (UpdateInv d region containerID) := by
  unfold setUpdateContainerRequest
  have hr : UpdateInv d region containerID
      ({ Region := region, ContainerID := containerID } : UpdateContainerRequest) := by
    simp [UpdateInv, UpdateFrame]
  generalize ({ Region := region, ContainerID := containerID } : UpdateContainerRequest) = r
    at hr ⊢
  iterate 24
    refine holds_bind _ _ (UpdateInv d region containerID) _ ?_ ?_
    · refine holds_ite _ _ _ _ (fun hc => ?_) (holds_pure _ _ hr)
      first
        | exact holds_pure _ _ (by simp_all [UpdateInv, UpdateFrame])
        | exact holds_bind_any _ _ _ (fun _ => holds_pure _ _ (by simp_all [UpdateInv, UpdateFrame]))
        | exact holds_bind_any _ _ _ (fun _ => holds_bind_any _ _ _
            (fun _ => holds_pure _ _ (by simp_all [UpdateInv, UpdateFrame])))
        | (refine holds_bind_any _ _ _ (fun p => ?_)
           split
           · exact holds_throw _ _
           · exact holds_pure _ _ (by simp_all [UpdateInv, UpdateFrame]))
        | (dsimp only
           split
           · exact holds_throw _ _
           · exact holds_pure _ _ (by simp_all [UpdateInv, UpdateFrame]))
    clear hr
    intro r hr
  exact holds_pure _ _ hr

/-! ## The secret patch filter -/

/-- C1: no entry returned by `filterSecretEnvsToPatch` carries a hashed placeholder: its value
is nil, or a string that does not start with `$argon2id`. -/
theorem filterSecretEnvsToPatch_never_hashed (oldEnv newEnv : List Secret) (e : Secret)
    (he : e ∈ filterSecretEnvsToPatch oldEnv newEnv) :
    e.Value = none ∨ ∃ v, e.Value = some v ∧ HasPrefix v "$argon2id" = false := by
  rcases (mem_filterSecretEnvsToPatch oldEnv newEnv e).1 he with ⟨_, hh⟩ | ⟨hv, _⟩
  · cases hval : e.Value with
    | none => exact Or.inl rfl
    | some v =>
      rw [hval] at hh
      exact Or.inr ⟨v, rfl, hh⟩
  · exact Or.inl hv

theorem filterSecretEnvsToPatch_never_hashed_witness :
    (⟨"C", none⟩ : Secret) ∈ filterSecretEnvsToPatch [⟨"A", some "x"⟩, ⟨"B", some "y"⟩]
        [⟨"A", some "$argon2id$v=19"⟩, ⟨"C", none⟩, ⟨"D", some "z"⟩]
      ∧ ((⟨"C", none⟩ : Secret).Value = none
          ∨ ∃ v, (⟨"C", none⟩ : Secret).Value = some v ∧ HasPrefix v "$argon2id" = false) :=
  ⟨by decide,
    filterSecretEnvsToPatch_never_hashed [⟨"A", some "x"⟩, ⟨"B", some "y"⟩]
      [⟨"A", some "$argon2id$v=19"⟩, ⟨"C", none⟩, ⟨"D", some "z"⟩] ⟨"C", none⟩ (by decide)⟩

/-- C2: the output of `filterSecretEnvsToPatch` starts with the entries of `newEnv` whose
value is not a hashed placeholder, unchanged and in the order of `newEnv`; everything
after them is a deletion for an entry of `oldEnv`. So every such entry of `newEnv` is
in the output, before any deletion entry. -/
theorem filterSecretEnvsToPatch_keeps_unhashed (oldEnv newEnv : List Secret) :
    filterSecretEnvsToPatch oldEnv newEnv
        = newEnv.filter (fun e => !isHashedPlaceholder e.Value)
          ++ (oldEnv.filter (fun e => !containsKey newEnv e.Key)).map
              (fun e => ({ Key := e.Key, Value := none } : Secret))
      ∧ ∀ e ∈ newEnv, isHashedPlaceholder e.Value = false →
          e ∈ filterSecretEnvsToPatch oldEnv newEnv := by
  refine ⟨filterSecretEnvsToPatch_eq oldEnv newEnv, ?_⟩
  intro e he hh
  exact (mem_filterSecretEnvsToPatch oldEnv newEnv e).2 (Or.inl ⟨he, hh⟩)

theorem filterSecretEnvsToPatch_keeps_unhashed_witness :
    filterSecretEnvsToPatch [⟨"A", some "x"⟩, ⟨"B", some "y"⟩]
        [⟨"D", some "z"⟩, ⟨"A", some "$argon2id$v=19"⟩, ⟨"C", none⟩]
      = [⟨"D", some "z"⟩, ⟨"C", none⟩, ⟨"B", none⟩]
    ∧ (⟨"D", some "z"⟩ : Secret) ∈ filterSecretEnvsToPatch [⟨"A", some "x"⟩, ⟨"B", some "y"⟩]
        [⟨"D", some "z"⟩, ⟨"A", some "$argon2id$v=19"⟩, ⟨"C", none⟩] :=
  ⟨by decide,
    (filterSecretEnvsToPatch_keeps_unhashed [⟨"A", some "x"⟩, ⟨"B", some "y"⟩]
      [⟨"D", some "z"⟩, ⟨"A", some "$argon2id$v=19"⟩, ⟨"C", none⟩]).2
      ⟨"D", some "z"⟩ (by decide) (by decide)⟩

/-- C3, as stated, fails: with `A` set to a nil value in `newEnv`, the output contains the
entry `(A, nil)` although the key `A` occurs in `newEnv`. -/
theorem filterSecretEnvsToPatch_deletes_present_key :
    (∃ s ∈ [(⟨"A", none⟩ : Secret)], s.Key = "A")
      ∧ (⟨"A", none⟩ : Secret) ∈ filterSecretEnvsToPatch [⟨"B", some "x"⟩] [⟨"A", none⟩] := by
  decide

/-- C3, amended: the output holds a deletion entry `(key, nil)` for every entry of `oldEnv`
whose key occurs in no entry of `newEnv`; the entries appended after the kept entries of
`newEnv` all have a nil value and a key that occurs in no entry of `newEnv`; and an entry
`(key, nil)` whose key occurs in `newEnv` is in the output only if it is an entry of
`newEnv` itself. -/
theorem filterSecretEnvsToPatch_deletions (oldEnv newEnv : List Secret) :
    (∀ o ∈ oldEnv, (∀ s ∈ newEnv, s.Key ≠ o.Key) →
        (⟨o.Key, none⟩ : Secret) ∈ filterSecretEnvsToPatch oldEnv newEnv)
      ∧ (∀ e ∈ (filterSecretEnvsToPatch oldEnv newEnv).drop
            (newEnv.filter (fun e => !isHashedPlaceholder e.Value)).length,
          e.Value = none ∧ (∃ o ∈ oldEnv, o.Key = e.Key) ∧ ∀ s ∈ newEnv, s.Key ≠ e.Key)
      ∧ (∀ key, (∃ s ∈ newEnv, s.Key = key) →
          (⟨key, none⟩ : Secret) ∈ filterSecretEnvsToPatch oldEnv newEnv →
          (⟨key, none⟩ : Secret) ∈ newEnv) := by
  refine ⟨?_, ?_, ?_⟩
  · intro o ho hn
    exact (mem_filterSecretEnvsToPatch oldEnv newEnv _).2 (Or.inr ⟨rfl, ⟨o, ho, rfl⟩, hn⟩)
  · intro e he
    rw [filterSecretEnvsToPatch_eq, List.drop_left] at he
    simp only [List.mem_map, List.mem_filter, Bool.not_eq_true'] at he
    obtain ⟨o, ⟨ho, hk⟩, rfl⟩ := he
    refine ⟨rfl, ⟨o, ho, rfl⟩, ?_⟩
    intro s hs hsk
    have : containsKey newEnv o.Key = true := (containsKey_iff _ _).2 ⟨s, hs, hsk⟩
    simp [this] at hk
  · rintro key ⟨s, hs, hsk⟩ hmem
    rcases (mem_filterSecretEnvsToPatch oldEnv newEnv _).1 hmem with ⟨h, _⟩ | ⟨_, _, hn⟩
    · exact h
    · exact absurd hsk (hn s hs)

theorem filterSecretEnvsToPatch_deletions_witness :
    (⟨"B", none⟩ : Secret) ∈ filterSecretEnvsToPatch [⟨"A", some "x"⟩, ⟨"B", some "y"⟩]
        [⟨"A", some "$argon2id$v=19"⟩, ⟨"C", none⟩]
      ∧ (⟨"C", none⟩ : Secret) ∈ [(⟨"A", some "$argon2id$v=19"⟩ : Secret), ⟨"C", none⟩] :=
  ⟨(filterSecretEnvsToPatch_deletions [⟨"A", some "x"⟩, ⟨"B", some "y"⟩]
      [⟨"A", some "$argon2id$v=19"⟩, ⟨"C", none⟩]).1 ⟨"B", some "y"⟩ (by decide) (by decide),
    (filterSecretEnvsToPatch_deletions [⟨"A", some "x"⟩, ⟨"B", some "y"⟩]
      [⟨"A", some "$argon2id$v=19"⟩, ⟨"C", none⟩]).2.2 "C" (by decide) (by decide)⟩

/-- C4, as stated, fails: a key that carries the same unhashed value in `oldEnv` and in
`newEnv` is submitted again, so the output for two equal mappings is not empty. -/
theorem filterSecretEnvsToPatch_resubmits_unchanged :
    (⟨"A", some "x"⟩ : Secret) ∈ [(⟨"A", some "x"⟩ : Secret)]
      ∧ filterSecretEnvsToPatch [⟨"A", some "x"⟩] [⟨"A", some "x"⟩] = [⟨"A", some "x"⟩]
      ∧ filterSecretEnvsToPatch [⟨"A", some "x"⟩] [⟨"A", some "x"⟩] ≠ [] := by
  decide

/-- C4, amended: an entry of `newEnv` is left out of the output exactly when its value is a
hashed placeholder, whatever `oldEnv` holds for its key; when `oldEnv` and `newEnv` are
the same mapping the output is its entries without a hashed placeholder and no
deletion, so it is empty exactly when every value is a hashed placeholder. -/
theorem filterSecretEnvsToPatch_same_mapping (oldEnv newEnv : List Secret) :
    (∀ e ∈ newEnv, (e ∈ filterSecretEnvsToPatch oldEnv newEnv
        ↔ isHashedPlaceholder e.Value = false))
      ∧ filterSecretEnvsToPatch newEnv newEnv
          = newEnv.filter (fun e => !isHashedPlaceholder e.Value)
      ∧ (filterSecretEnvsToPatch newEnv newEnv = []
          ↔ ∀ e ∈ newEnv, isHashedPlaceholder e.Value = true) := by
  have hself : filterSecretEnvsToPatch newEnv newEnv
      = newEnv.filter (fun e => !isHashedPlaceholder e.Value) := by
    rw [filterSecretEnvsToPatch_eq, deletions_self]
    simp
  refine ⟨?_, hself, ?_⟩
  · intro e he
    constructor
    · intro hmem
      rcases (mem_filterSecretEnvsToPatch oldEnv newEnv e).1 hmem with ⟨_, hh⟩ | ⟨_, _, hn⟩
      · exact hh
      · exact absurd rfl (hn e he)
    · intro hh
      exact (mem_filterSecretEnvsToPatch oldEnv newEnv e).2 (Or.inl ⟨he, hh⟩)
  · rw [hself, List.filter_eq_nil_iff]
    simp

theorem filterSecretEnvsToPatch_same_mapping_witness :
    ((⟨"A", some "x"⟩ : Secret) ∈ filterSecretEnvsToPatch [⟨"A", some "x"⟩]
        [⟨"A", some "x"⟩, ⟨"H", some "$argon2id$v=19"⟩]
      ↔ isHashedPlaceholder (⟨"A", some "x"⟩ : Secret).Value = false)
    ∧ filterSecretEnvsToPatch [⟨"H", some "$argon2id$v=19"⟩] [⟨"H", some "$argon2id$v=19"⟩]
        = [] :=
  ⟨(filterSecretEnvsToPatch_same_mapping [⟨"A", some "x"⟩]
      [⟨"A", some "x"⟩, ⟨"H", some "$argon2id$v=19"⟩]).1 ⟨"A", some "x"⟩ (by decide),
    (filterSecretEnvsToPatch_same_mapping [⟨"H", some "$argon2id$v=19"⟩]
      [⟨"H", some "$argon2id$v=19"⟩]).2.2.2 (by decide)⟩

theorem setUpdateContainerRequest_redeploy_inv (x : Helpers) (d : ResourceData)
    (region containerID : String) (h : d.HasChange "registry_sha256" = true) :
    Holds (setUpdateContainerRequest x d region containerID)
      (fun req => req.Redeploy = some true) := by
  unfold setUpdateContainerRequest
  iterate 19
    refine holds_bind_any _ _ _ (fun r => ?_)
  dsimp only
  refine holds_bind _ _ (fun req => req.Redeploy = some true) _ ?_ ?_
  · simp only [h, if_true]
    exact holds_pure _ _ rfl
  intro r hr
  iterate 4
    refine holds_bind _ _ (fun req => req.Redeploy = some true) _ ?_ ?_
    · refine holds_ite _ _ _ _ (fun hc => ?_) (holds_pure _ _ hr)
      first
        | exact holds_pure _ _ (by simpa using hr)
        | exact holds_bind_any _ _ _ (fun _ => holds_pure _ _ (by simpa using hr))
    clear hr
    intro r hr
  exact holds_pure _ _ hr

theorem expandScalingOptionsList_skip (pre rest : List Value)
    (hpre : ∀ v ∈ pre, ∀ m, v ≠ Value.map m) :
    expandScalingOptionsList (pre ++ rest) = expandScalingOptionsList rest := by
  induction pre with
  | nil => rfl
  | cons v vs ih =>
    have hv := hpre v (List.mem_cons_self _ _)
    have hvs : ∀ w ∈ vs, ∀ m, w ≠ Value.map m :=
      fun w hw => hpre w (List.mem_cons_of_mem _ hw)
    cases v with
    | map m => exact absurd rfl (hv m)
    | _ => simpa [expandScalingOptionsList] using ih hvs

/-! ### Auxiliary facts about the retry loop -/

theorem retryInterval_eq : DefaultContainerRetryInterval = 5000000000 := by
  decide

theorem selectTime_mono (CreateDomain : Nat → CallResult) (j k : Nat) (h : j ≤ k) :
    selectTime CreateDomain j ≤ selectTime CreateDomain k := by
  induction k with
  | zero =>
    have : j = 0 := by omega
    subst this
    exact Nat.le_refl _
  | succ k ih =>
    rcases Nat.eq_or_lt_of_le h with rfl | hlt
    · exact Nat.le_refl _
    · have := ih (by omega)
      simp only [selectTime]
      omega

theorem retryCaseAt_le (CreateDomain : Nat → CallResult) (tie : Nat → Bool)
    (deadline j : Nat) (h : retryCaseAt CreateDomain tie deadline j) :
    selectTime CreateDomain j + DefaultContainerRetryInterval ≤ deadline := by
  rcases h with h | ⟨h, _⟩ <;> omega

theorem not_retryCaseAt_ge (CreateDomain : Nat → CallResult) (tie : Nat → Bool)
    (deadline j : Nat) (h : ¬ retryCaseAt CreateDomain tie deadline j) :
    deadline ≤ selectTime CreateDomain j + DefaultContainerRetryInterval := by
  unfold retryCaseAt at h
  omega

/-- More fuel does not change the result of a run that has returned. -/
theorem retryLoop_fuel_succ (CreateDomain : Nat → CallResult) (tie : Nat → Bool)
    (deadline : Nat) (fuel now n : Nat) (r : RetryRun)
    (h : retryLoop CreateDomain tie deadline fuel now n = some r) :
    retryLoop CreateDomain tie deadline (fuel + 1) now n = some r := by
  induction fuel generalizing now n with
  | zero => simp [retryLoop] at h
  | succ fuel ih =>
    rw [retryLoop] at h
    rw [retryLoop]
    dsimp only at h ⊢
    split_ifs at h ⊢
    · exact ih _ _ h
    · exact h
    · exact h

theorem retryLoop_fuel_add (CreateDomain : Nat → CallResult) (tie : Nat → Bool)
    (deadline : Nat) (fuel now n : Nat) (r : RetryRun)
    (h : retryLoop CreateDomain tie deadline fuel now n = some r) (extra : Nat) :
    retryLoop CreateDomain tie deadline (fuel + extra) now n = some r := by
  induction extra with
  | zero => exact h
  | succ extra ih => exact retryLoop_fuel_succ _ _ _ _ _ _ _ ih

/-- The loop returns once the fuel covers the intervals left before the deadline, and its
run satisfies `RunSpec`. -/
theorem retryLoop_spec (CreateDomain : Nat → CallResult) (tie : Nat → Bool) (deadline : Nat)
    (fuel n : Nat)
    (hfuel : deadline < selectTime CreateDomain n + (fuel + 1) * DefaultContainerRetryInterval)
    (hprev : ∀ j, j < n →
      isContainerDNSResolveError (CreateDomain j).err = true
      ∧ retryCaseAt CreateDomain tie deadline j) :
    ∃ r, retryLoop CreateDomain tie deadline (fuel + 1) (selectTime CreateDomain n) n = some r
      ∧ RunSpec CreateDomain tie deadline r := by
  induction fuel generalizing n with
  | zero =>
    rw [retryLoop]
    have hsel : ¬ (selectTime CreateDomain n + DefaultContainerRetryInterval < deadline
        ∨ (selectTime CreateDomain n + DefaultContainerRetryInterval = deadline
            ∧ tie n = true)) := by
      omega
    rw [if_neg hsel]
    refine ⟨_, rfl, ?_⟩
    refine ⟨by simp, by simp, by simp, by simp, ?_, by simp, ?_⟩
    · intro j hj
      exact hprev j (by simpa using hj)
    · intro _
      simp only [Nat.add_sub_cancel]
      exact ⟨trivial, hsel⟩
  | succ fuel ih =>
    rw [retryLoop]
    by_cases hsel : selectTime CreateDomain n + DefaultContainerRetryInterval < deadline
        ∨ (selectTime CreateDomain n + DefaultContainerRetryInterval = deadline
            ∧ tie n = true)
    · rw [if_pos hsel]
      by_cases htr : (CreateDomain n).err ≠ none
          ∧ isContainerDNSResolveError (CreateDomain n).err = true
      · simp only []
        rw [if_pos htr]
        have hstep : selectTime CreateDomain n + DefaultContainerRetryInterval
            + (CreateDomain n).duration = selectTime CreateDomain (n + 1) := rfl
        rw [hstep]
        apply ih (n + 1)
        · simp only [selectTime]
          have := Nat.succ_mul (fuel + 1) DefaultContainerRetryInterval
          simp only [Nat.succ_eq_add_one] at this
          have := retryCaseAt_le CreateDomain tie deadline n hsel
          omega
        · intro j hj
          rcases Nat.eq_or_lt_of_le (Nat.le_of_lt_succ hj) with rfl | hlt
          · exact ⟨htr.2, hsel⟩
          · exact hprev j hlt
      · simp only []
        rw [if_neg htr]
        refine ⟨_, rfl, ?_⟩
        refine ⟨by simp, by simp, by simp, by simp, ?_, ?_, by simp⟩
        · intro j hj
          exact hprev j (by simpa using hj)
        · intro _
          simp only [Nat.add_sub_cancel]
          refine ⟨trivial, hsel, ?_⟩
          cases herr : (CreateDomain n).err with
          | none => rfl
          | some e =>
            rw [herr] at htr
            cases hdns : isContainerDNSResolveError (some e) with
            | false => rfl
            | true => exact absurd ⟨by simp, hdns⟩ htr
    · rw [if_neg hsel]
      refine ⟨_, rfl, ?_⟩
      refine ⟨by simp, by simp, by simp, by simp, ?_, by simp, ?_⟩
      · intro j hj
        exact hprev j (by simpa using hj)
      · intro _
        simp only [Nat.add_sub_cancel]
        exact ⟨trivial, hsel⟩

/-- The wrapper always returns, and its run satisfies `RunSpec`. -/
theorem retryCreateContainerDomain_spec (CreateDomain : Nat → CallResult) (tie : Nat → Bool)
    (timeout : Int) :
    ∃ r, retryCreateContainerDomain CreateDomain tie timeout = some r
      ∧ RunSpec CreateDomain tie timeout.toNat r := by
  unfold retryCreateContainerDomain
  apply retryLoop_spec CreateDomain tie timeout.toNat _ 0
  · rw [retryInterval_eq]
    simp only [selectTime]
    omega
  · intro j hj
    omega

/-! ## The partial-update request builder -/

/-- C5: in every request that `setUpdateContainerRequest` returns, a slot whose field is not
reported changed is unset (nil, or the empty string for the string enums), `Redeploy` is
unset unless `deploy` or `registry_sha256` changed, and `Region` and `ContainerID` are
the given ones; when no field is changed the call returns the request that carries
only the given `Region` and `ContainerID`. -/
theorem setUpdateContainerRequest_unchanged_unset (x : Helpers) (d : ResourceData)
    (region containerID : String) :
    (∀ req, setUpdateContainerRequest x d region containerID = .ok req →
      req.Region = region ∧ req.ContainerID = containerID
      ∧ (d.HasChange "environment_variables" = false → req.EnvironmentVariables = none)
      ∧ (d.HasChange "secret_environment_variables" = false →
          req.SecretEnvironmentVariables = none)
      ∧ (d.HasChange "tags" = false → req.Tags = none)
      ∧ (d.HasChange "min_scale" = false → req.MinScale = none)
      ∧ (d.HasChange "max_scale" = false → req.MaxScale = none)
      ∧ (d.HasChange "memory_limit" = false → req.MemoryLimit = none)
      ∧ (d.HasChange "cpu_limit" = false → req.CPULimit = none)
      ∧ (d.HasChange "timeout" = false → req.Timeout = none)
      ∧ (d.HasChange "privacy" = false → req.Privacy = "")
      ∧ (d.HasChange "description" = false → req.Description = none)
      ∧ (d.HasChange "registry_image" = false → req.RegistryImage = none)
      ∧ (d.HasChange "max_concurrency" = false → req.MaxConcurrency = none)
      ∧ (d.HasChange "protocol" = false → req.Protocol = "")
      ∧ (d.HasChange "port" = false → req.Port = none)
      ∧ (d.HasChange "http_option" = false → req.HTTPOption = "")
      ∧ (d.HasChange "sandbox" = false → req.Sandbox = "")
      ∧ (d.HasChange "health_check" = false → req.HealthCheck = none)
      ∧ (d.HasChange "scaling_option" = false → req.ScalingOption = none)
      ∧ (d.HasChange "local_storage_limit" = false → req.LocalStorageLimit = none)
      ∧ (d.HasChange "command" = false → req.Command = none)
      ∧ (d.HasChange "args" = false → req.Args = none)
      ∧ (d.HasChange "private_network_id" = false → req.PrivateNetworkID = none)
      ∧ (d.HasChange "deploy" = false → d.HasChange "registry_sha256" = false →
          req.Redeploy = none))
    ∧ ((∀ key, d.HasChange key = false) →
        setUpdateContainerRequest x d region containerID
          = .ok { Region := region, ContainerID := containerID }) := by
  constructor
  · intro req hreq
    obtain ⟨hf, h1, h2⟩ := setUpdateContainerRequest_frame x d region containerID req hreq
    exact ⟨h1, h2, hf⟩
  · intro hno
    simp [setUpdateContainerRequest, hno]
    rfl

theorem setUpdateContainerRequest_unchanged_unset_witness :
    setUpdateContainerRequest sampleHelpers sampleUnchanged "fr-par" "c-1"
        = .ok { Region := "fr-par", ContainerID := "c-1" }
    ∧ setUpdateContainerRequest sampleHelpers sampleMinScale "fr-par" "c-1"
        = .ok { Region := "fr-par", ContainerID := "c-1", MinScale := some 3 }
    ∧ ({ Region := "fr-par", ContainerID := "c-1", MinScale := some 3 }
        : UpdateContainerRequest).MaxScale = none :=
  ⟨(setUpdateContainerRequest_unchanged_unset sampleHelpers sampleUnchanged "fr-par" "c-1").2
      (fun _ => rfl),
    rfl,
    ((setUpdateContainerRequest_unchanged_unset sampleHelpers sampleMinScale "fr-par" "c-1").1
      { Region := "fr-par", ContainerID := "c-1", MinScale := some 3 } rfl).2.2.2.2.2.2.1
      (by decide)⟩

/-- C6: whenever `setUpdateContainerRequest` returns a request and `registry_sha256` is
reported changed, the request has `Redeploy` set to `true`, whatever else changed and
whatever the value of `deploy`. -/
theorem setUpdateContainerRequest_digest_forces_redeploy (x : Helpers) (d : ResourceData)
    (region containerID : String) (req : UpdateContainerRequest)
    (hreq : setUpdateContainerRequest x d region containerID = .ok req)
    (hsha : d.HasChange "registry_sha256" = true) :
    req.Redeploy = some true :=
  setUpdateContainerRequest_redeploy_inv x d region containerID hsha req hreq

theorem setUpdateContainerRequest_digest_forces_redeploy_witness :
    sampleDigest.HasChange "deploy" = true
    ∧ sampleHelpers.ExpandBoolPtr (sampleDigest.Get "deploy") = some false
    ∧ setUpdateContainerRequest sampleHelpers sampleDigest "fr-par" "c-1"
        = .ok { Region := "fr-par", ContainerID := "c-1", Redeploy := some true }
    ∧ ({ Region := "fr-par", ContainerID := "c-1", Redeploy := some true }
        : UpdateContainerRequest).Redeploy = some true :=
  ⟨by decide, by decide, rfl,
    setUpdateContainerRequest_digest_forces_redeploy sampleHelpers sampleDigest "fr-par" "c-1"
      { Region := "fr-par", ContainerID := "c-1", Redeploy := some true } rfl (by decide)⟩

/-! ## The scaling-option builder -/

/-- C7: when the scaling-option block (the first map of the set) has more than one of the
three thresholds set to a non-zero value, `expandScalingOptions` returns the error
`a maximum of one scaling option can be set` together with an empty scaling option. -/
theorem expandScalingOptions_rejects_several (pre rest : List Value)
    (rawOption : List (String × Value))
    (hpre : ∀ v ∈ pre, ∀ m, v ≠ Value.map m)
    (hset : 1 < thresholdsSet rawOption) :
    expandScalingOptions (.set (pre ++ .map rawOption :: rest))
      = (some { ConcurrentRequestsThreshold := none, CPUUsageThreshold := none,
                MemoryUsageThreshold := none },
         some (.errorString "a maximum of one scaling option can be set")) := by
  unfold expandScalingOptions
  simp only []
  rw [expandScalingOptionsList_skip pre _ hpre]
  unfold thresholdsSet thresholdIsSet at hset
  unfold expandScalingOptionsList
  generalize assertInt (mapIndex rawOption "concurrent_requests_threshold") = a₁ at hset ⊢
  generalize assertInt (mapIndex rawOption "cpu_usage_threshold") = a₂ at hset ⊢
  generalize assertInt (mapIndex rawOption "memory_usage_threshold") = a₃ at hset ⊢
  cases a₁ <;> cases a₂ <;> cases a₃ <;> simp at hset ⊢ <;> split_ifs at hset ⊢ <;>
    simp_all

theorem expandScalingOptions_rejects_several_witness :
    expandScalingOptions
        (.set ([] ++ .map [("concurrent_requests_threshold", .int 80),
                           ("cpu_usage_threshold", .int 70),
                           ("memory_usage_threshold", .int 0)] :: []))
      = (some { ConcurrentRequestsThreshold := none, CPUUsageThreshold := none,
                MemoryUsageThreshold := none },
         some (.errorString "a maximum of one scaling option can be set")) :=
  expandScalingOptions_rejects_several [] []
    [("concurrent_requests_threshold", .int 80), ("cpu_usage_threshold", .int 70),
     ("memory_usage_threshold", .int 0)]
    (by simp) (by decide)

/-! ## The retry wrapper -/

/-- C8: if the calls before call number `k` all fail with the transient DNS error, call `k`
succeeds or fails with another error, and call `k` is a retry-case call (its interval
ends before the timeout), then the wrapper returns exactly the pair of call `k`, having
made `k + 1` calls, at the end of that call. And in every run, each call before the
last one failed with the transient DNS error: nothing else causes another attempt. -/
theorem retryCreateContainerDomain_returns_first_definitive
    (CreateDomain : Nat → CallResult) (tie : Nat → Bool) (timeout : Int) :
    (∀ k, (∀ j, j < k → isContainerDNSResolveError (CreateDomain j).err = true) →
      isContainerDNSResolveError (CreateDomain k).err = false →
      retryCaseAt CreateDomain tie timeout.toNat k →
      retryCreateContainerDomain CreateDomain tie timeout
        = some { domain := (CreateDomain k).domain
                 err := (CreateDomain k).err
                 calls := k + 1
                 lastStart := selectTime CreateDomain k + DefaultContainerRetryInterval
                 elapsed := selectTime CreateDomain k + DefaultContainerRetryInterval
                              + (CreateDomain k).duration
                 afterTimeout := false })
    ∧ (∀ r, retryCreateContainerDomain CreateDomain tie timeout = some r →
        ∀ j, j + 1 < r.calls → isContainerDNSResolveError (CreateDomain j).err = true) := by
  obtain ⟨r, hr, hcalls, hdom, herr, hel, hearlier, hretry, hto⟩ :=
    retryCreateContainerDomain_spec CreateDomain tie timeout
  constructor
  · intro k hprev hk hbefore
    have hm : r.calls - 1 = k := by
      rcases Nat.lt_trichotomy (r.calls - 1) k with hlt | heq | hgt
      · exfalso
        have hdns := hprev _ hlt
        cases hat : r.afterTimeout with
        | false =>
          have := (hretry hat).2.2
          rw [hdns] at this
          cases this
        | true =>
          have h1 := not_retryCaseAt_ge _ _ _ _ (hto hat).2
          have h2 := selectTime_mono CreateDomain (r.calls - 1 + 1) k hlt
          have h3 := retryCaseAt_le _ _ _ _ hbefore
          have h4 : selectTime CreateDomain (r.calls - 1 + 1)
              = selectTime CreateDomain (r.calls - 1) + DefaultContainerRetryInterval
                + (CreateDomain (r.calls - 1)).duration := rfl
          rw [retryInterval_eq] at h1 h3 h4
          omega
      · exact heq
      · exfalso
        have := (hearlier k (by omega)).1
        rw [hk] at this
        cases this
    have hat : r.afterTimeout = false := by
      cases hat : r.afterTimeout with
      | false => rfl
      | true =>
        have h1 := (hto hat).2
        rw [hm] at h1
        exact absurd hbefore h1
    have hstart := (hretry hat).1
    rw [hm] at hdom herr hel hstart
    have hc : r.calls = k + 1 := by omega
    rw [hr]
    rcases r with ⟨d, e, c, ls, el, at'⟩
    simp only at hdom herr hel hstart hc hat
    subst hdom herr hc hat
    rw [hel, hstart]
  · intro r' hr' j hj
    rw [hr] at hr'
    cases hr'
    exact (hearlier j hj).1

theorem retryCreateContainerDomain_returns_first_definitive_witness :
    retryCreateContainerDomain thirdTimeLucky (fun _ => false) 600000000000
      = some { domain := some { ID := "d-1", Hostname := "example.com", ContainerID := "c-1" }
               err := none
               calls := 3
               lastStart := 17000000000
               elapsed := 18000000000
               afterTimeout := false } :=
  (retryCreateContainerDomain_returns_first_definitive thirdTimeLucky (fun _ => false)
    600000000000).1 2 (by decide) (by decide) (Or.inl (by decide))

/-- C9: if every retry-case call fails with the transient DNS error, the wrapper returns the
pair of its last call unchanged, whatever its error; that call is the one of the
timeout case and starts no earlier than the timeout, and every call before it was
a retry-case call, started no later than the timeout: exactly one call is made once the
timeout has elapsed. In particular the returned error is the transient error when
that last call fails with it. -/
theorem retryCreateContainerDomain_final_attempt
    (CreateDomain : Nat → CallResult) (tie : Nat → Bool) (timeout : Int)
    (hall : ∀ j, retryCaseAt CreateDomain tie timeout.toNat j →
      isContainerDNSResolveError (CreateDomain j).err = true) :
    ∃ r, retryCreateContainerDomain CreateDomain tie timeout = some r
      ∧ r.afterTimeout = true
      ∧ 1 ≤ r.calls
      ∧ r.domain = (CreateDomain (r.calls - 1)).domain
      ∧ r.err = (CreateDomain (r.calls - 1)).err
      ∧ timeout.toNat ≤ r.lastStart
      ∧ (∀ j, j + 1 < r.calls →
          selectTime CreateDomain j + DefaultContainerRetryInterval ≤ timeout.toNat)
      ∧ (isContainerDNSResolveError (CreateDomain (r.calls - 1)).err = true →
          isContainerDNSResolveError r.err = true) := by
  obtain ⟨r, hr, hcalls, hdom, herr, hel, hearlier, hretry, hto⟩ :=
    retryCreateContainerDomain_spec CreateDomain tie timeout
  have hat : r.afterTimeout = true := by
    cases hat : r.afterTimeout with
    | true => rfl
    | false =>
      obtain ⟨_, h2, h3⟩ := hretry hat
      rw [hall _ h2] at h3
      cases h3
  refine ⟨r, hr, hat, hcalls, hdom, herr, ?_,
    fun j hj => retryCaseAt_le _ _ _ _ (hearlier j hj).2, ?_⟩
  · rw [(hto hat).1]
    exact Nat.le_max_right _ _
  · intro h
    rw [herr]
    exact h

theorem retryCreateContainerDomain_final_attempt_witness :
    retryCreateContainerDomain slowTransientCall (fun _ => false) 10000000000
      = some { domain := none
               err := some (.responseError 400 "could not validate domain: no such host")
               calls := 2
               lastStart := 105000000000
               elapsed := 205000000000
               afterTimeout := true }
    ∧ ∃ r, retryCreateContainerDomain slowTransientCall (fun _ => false) 10000000000 = some r
      ∧ r.afterTimeout = true
      ∧ 1 ≤ r.calls
      ∧ r.domain = (slowTransientCall (r.calls - 1)).domain
      ∧ r.err = (slowTransientCall (r.calls - 1)).err
      ∧ (10000000000 : Int).toNat ≤ r.lastStart
      ∧ (∀ j, j + 1 < r.calls →
          selectTime slowTransientCall j + DefaultContainerRetryInterval
            ≤ (10000000000 : Int).toNat)
      ∧ (isContainerDNSResolveError (slowTransientCall (r.calls - 1)).err = true →
          isContainerDNSResolveError r.err = true) :=
  ⟨by decide,
    retryCreateContainerDomain_final_attempt slowTransientCall (fun _ => false) 10000000000
      (fun _ _ => rfl)⟩

/-- C10, as stated, fails: with a timeout of 10 seconds and calls that take 100 seconds and
fail with the transient DNS error, the retry-case call made at 5 seconds returns at
105 seconds, the timeout-case call follows at once, and the wrapper returns after 205
seconds, more than the timeout plus the duration of one call. -/
theorem retryCreateContainerDomain_exceeds_one_call :
    retryCreateContainerDomain slowTransientCall (fun _ => false) 10000000000
      = some { domain := none
               err := some (.responseError 400 "could not validate domain: no such host")
               calls := 2
               lastStart := 105000000000
               elapsed := 205000000000
               afterTimeout := true }
    ∧ (slowTransientCall 0).duration = 100000000000
    ∧ (slowTransientCall 1).duration = 100000000000
    ∧ (10000000000 : Int).toNat + 100000000000 < 205000000000 := by
  decide

/-- C10, amended: for every timeout and every behaviour of the remote call the wrapper
returns (with any number of loop iterations allowed beyond one per retry interval
that fits before the timeout, plus one), and its total latency is at most the timeout
plus the durations of its last two calls (of its only call when it makes one); it is
at most the timeout plus the duration of the last call when that call is a
retry-case call. -/
theorem retryCreateContainerDomain_latency
    (CreateDomain : Nat → CallResult) (tie : Nat → Bool) (timeout : Int) :
    ∃ r, retryCreateContainerDomain CreateDomain tie timeout = some r
      ∧ (∀ extra, retryLoop CreateDomain tie timeout.toNat
            (timeout.toNat / DefaultContainerRetryInterval + 1 + extra) 0 0 = some r)
      ∧ 1 ≤ r.calls
      ∧ r.elapsed ≤ timeout.toNat
          + (if 2 ≤ r.calls then (CreateDomain (r.calls - 2)).duration else 0)
          + (CreateDomain (r.calls - 1)).duration
      ∧ (r.afterTimeout = false →
          r.elapsed ≤ timeout.toNat + (CreateDomain (r.calls - 1)).duration) := by
  obtain ⟨r, hr, hcalls, hdom, herr, hel, hearlier, hretry, hto⟩ :=
    retryCreateContainerDomain_spec CreateDomain tie timeout
  refine ⟨r, hr, fun extra => retryLoop_fuel_add _ _ _ _ _ _ _ hr extra, hcalls, ?_, ?_⟩
  · cases hat : r.afterTimeout with
    | false =>
      have h1 := (hretry hat).1
      have h2 := retryCaseAt_le _ _ _ _ (hretry hat).2.1
      omega
    | true =>
      have hstart := (hto hat).1
      by_cases h2 : 2 ≤ r.calls
      · rw [if_pos h2]
        have hprev := retryCaseAt_le _ _ _ _ (hearlier (r.calls - 2) (by omega)).2
        have hsel : selectTime CreateDomain (r.calls - 1)
            = selectTime CreateDomain (r.calls - 2) + DefaultContainerRetryInterval
              + (CreateDomain (r.calls - 2)).duration := by
          have : r.calls - 1 = (r.calls - 2) + 1 := by omega
          rw [this]
          rfl
        rw [hsel] at hstart
        have := Nat.max_le.2 ⟨(by omega :
          selectTime CreateDomain (r.calls - 2) + DefaultContainerRetryInterval
              + (CreateDomain (r.calls - 2)).duration
            ≤ timeout.toNat + (CreateDomain (r.calls - 2)).duration),
          (by omega : timeout.toNat ≤ timeout.toNat + (CreateDomain (r.calls - 2)).duration)⟩
        omega
      · rw [if_neg h2]
        have h1 : r.calls - 1 = 0 := by omega
        rw [h1] at hstart
        simp only [selectTime, Nat.zero_max] at hstart
        omega
  · intro hat
    have h1 := (hretry hat).1
    have h2 := retryCaseAt_le _ _ _ _ (hretry hat).2.1
    omega

theorem retryCreateContainerDomain_latency_witness :
    ∃ r, retryCreateContainerDomain thirdTimeLucky (fun _ => true) 12000000000 = some r
      ∧ (∀ extra, retryLoop thirdTimeLucky (fun _ => true) (12000000000 : Int).toNat
            ((12000000000 : Int).toNat / DefaultContainerRetryInterval + 1 + extra) 0 0
              = some r)
      ∧ 1 ≤ r.calls
      ∧ r.elapsed ≤ (12000000000 : Int).toNat
          + (if 2 ≤ r.calls then (thirdTimeLucky (r.calls - 2)).duration else 0)
          + (thirdTimeLucky (r.calls - 1)).duration
      ∧ (r.afterTimeout = false →
          r.elapsed ≤ (12000000000 : Int).toNat + (thirdTimeLucky (r.calls - 1)).duration) :=
  retryCreateContainerDomain_latency thirdTimeLucky (fun _ => true) 12000000000

/-! ### Auxiliary facts about errors -/

theorem asResponseError_iff (e : GoError) (message : String) :
    asResponseError e = some message ↔ ∃ code, Wraps e (.responseError code message) := by
  constructor
  · intro h
    induction e with
    | responseError code m =>
      simp only [asResponseError, Option.some.injEq] at h
      subst h
      exact ⟨code, Wraps.refl _⟩
    | errorString t => simp [asResponseError] at h
    | wrapped t inner ih =>
      obtain ⟨code, hw⟩ := ih (by simpa [asResponseError] using h)
      exact ⟨code, Wraps.step _ _ _ hw⟩
  · rintro ⟨code, hw⟩
    generalize ht : GoError.responseError code message = target at hw
    induction hw with
    | refl e =>
      subst ht
      rfl
    | step t inner target _ ih =>
      simpa [asResponseError] using ih ht

/-! ## The transient DNS error -/

/-- C11: `isContainerDNSResolveError err` is true exactly when `err` is, or wraps, a response
error whose message starts with `could not validate domain`; it is false for a nil
error, for a plain error, for an error that wraps no response error, and for a
response error with another message. -/
theorem isContainerDNSResolveError_iff (err : Option GoError) :
    (isContainerDNSResolveError err = true ↔
      ∃ e code message, err = some e ∧ Wraps e (.responseError code message)
        ∧ HasPrefix message "could not validate domain" = true)
    ∧ isContainerDNSResolveError none = false
    ∧ (∀ text, isContainerDNSResolveError (some (.errorString text)) = false)
    ∧ (∀ e, (∀ code message, ¬ Wraps e (.responseError code message)) →
        isContainerDNSResolveError (some e) = false)
    ∧ (∀ code message, HasPrefix message "could not validate domain" = false →
        isContainerDNSResolveError (some (.responseError code message)) = false) := by
  refine ⟨?_, rfl, fun _ => rfl, ?_, ?_⟩
  · cases err with
    | none => simp [isContainerDNSResolveError]
    | some e =>
      simp only [isContainerDNSResolveError, Option.some.injEq]
      cases h : asResponseError e with
      | none =>
        simp only [Bool.false_eq_true, false_iff]
        rintro ⟨e', code, message, rfl, hw, _⟩
        have := (asResponseError_iff e message).2 ⟨code, hw⟩
        rw [h] at this
        cases this
      | some m =>
        simp only
        constructor
        · intro hp
          obtain ⟨code, hw⟩ := (asResponseError_iff e m).1 h
          exact ⟨e, code, m, rfl, hw, hp⟩
        · rintro ⟨e', code, message, rfl, hw, hp⟩
          have := (asResponseError_iff e message).2 ⟨code, hw⟩
          rw [h] at this
          cases this
          exact hp
  · intro e hno
    simp only [isContainerDNSResolveError]
    cases h : asResponseError e with
    | none => rfl
    | some m =>
      obtain ⟨code, hw⟩ := (asResponseError_iff e m).1 h
      exact absurd hw (hno code m)
  · intro code message hp
    simpa [isContainerDNSResolveError, asResponseError] using hp

theorem isContainerDNSResolveError_iff_witness :
    isContainerDNSResolveError
        (some (.wrapped "create domain"
          (.responseError 400 "could not validate domain: no such host"))) = true
    ∧ isContainerDNSResolveError (some (.responseError 400 "quota exceeded")) = false :=
  ⟨(isContainerDNSResolveError_iff _).1.2
      ⟨_, 400, "could not validate domain: no such host", rfl,
        Wraps.step _ _ _ (Wraps.refl _), by decide⟩,
    (isContainerDNSResolveError_iff none).2.2.2.2 400 "quota exceeded" (by decide)⟩

/-! ## The poll-until-ready waiter -/

/-- C12: when the fetch reports not-found on the first poll, the waiter surfaces the
not-found condition, whatever the interval and the timeout, and not the timeout
condition; the error its callers receive is the not-found error of the fetch, so
their `Is404` check recognises it whenever it recognises that error. -/
theorem waitForResource_notFound_first {α : Type} (fetch : Nat → PollResult α)
    (interval timeout : Nat) (err : GoError) (hfirst : fetch 0 = .deleted err) :
    waitForResource fetch interval timeout = some (.notFound err)
    ∧ waitForResource fetch interval timeout ≠ some .timedOut
    ∧ (WaitOutcome.notFound err : WaitOutcome α).toPair = .error err
    ∧ ∀ x : Externals, x.Is404 err = true →
        ∃ e, (WaitOutcome.notFound err : WaitOutcome α).toPair = .error e ∧ x.Is404 e = true := by
  have h : waitForResource fetch interval timeout = some (.notFound err) := by
    unfold waitForResource
    rw [waitLoop, hfirst]
  refine ⟨h, ?_, rfl, fun x hx => ⟨err, rfl, hx⟩⟩
  rw [h]
  intro hne
  cases hne

theorem waitForResource_notFound_first_witness :
    waitForResource (fun _ => (PollResult.deleted notFoundError : PollResult Trigger))
        5000000000 0 = some (.notFound notFoundError)
    ∧ sampleExternals.Is404 notFoundError = true :=
  ⟨(waitForResource_notFound_first (fun _ => PollResult.deleted notFoundError)
      5000000000 0 notFoundError rfl).1, by decide⟩

/-! ## The trigger and deployment entry points -/

/-- C13: in `ResourceContainerTriggerRead`, and in the same way in `ResourceDeploymentRead`,
when the waiter returns an error that `Is404` recognises, the identifier is set to the
empty string, no `d.Set` is made and no diagnostic is returned; any other error of
the waiter is returned as one error diagnostic, with the identifier and the state
fields unchanged. -/
theorem read_notFound_clears_id (x : Externals) (api : RemoteAPI) (w : World)
    (region id : String) (err : GoError) (hid : x.ParseID w.Id = .ok (region, id)) :
    (api.waitForContainerTrigger w.Calls = .error err →
      (x.Is404 err = true →
        ResourceContainerTriggerRead x api w
          = ([], { Id := "", Sets := w.Sets,
                   Calls := w.Calls ++ [.waitForContainerTrigger region id] }))
      ∧ (x.Is404 err = false →
        ResourceContainerTriggerRead x api w
          = ([{ Severity := .Error, Summary := x.ErrorText err, Detail := "" }],
             { Id := w.Id, Sets := w.Sets,
               Calls := w.Calls ++ [.waitForContainerTrigger region id] })))
    ∧ (api.waitForDeployment w.Calls = .error err →
      (x.Is404 err = true →
        ResourceDeploymentRead x api w
          = ([], { Id := "", Sets := w.Sets,
                   Calls := w.Calls ++ [.waitForDeployment region id] }))
      ∧ (x.Is404 err = false →
        ResourceDeploymentRead x api w
          = ([{ Severity := .Error, Summary := x.ErrorText err, Detail := "" }],
             { Id := w.Id, Sets := w.Sets,
               Calls := w.Calls ++ [.waitForDeployment region id] }))) := by
  constructor
  · intro hwait
    constructor
    · intro h404
      simp [ResourceContainerTriggerRead, NewAPIWithRegionAndID, hid, waitForContainerTrigger,
        hwait, h404, World.SetId]
    · intro h404
      simp [ResourceContainerTriggerRead, NewAPIWithRegionAndID, hid, waitForContainerTrigger,
        hwait, h404, FromErr]
  · intro hwait
    constructor
    · intro h404
      simp [ResourceDeploymentRead, NewAPIWithRegionAndID, hid, waitForDeployment,
        hwait, h404, World.SetId]
    · intro h404
      simp [ResourceDeploymentRead, NewAPIWithRegionAndID, hid, waitForDeployment,
        hwait, h404, FromErr]

theorem read_notFound_clears_id_witness :
    (ResourceContainerTriggerRead sampleExternals goneAPI sampleWorld).1 = []
    ∧ (ResourceContainerTriggerRead sampleExternals goneAPI sampleWorld).2.Id = ""
    ∧ ResourceDeploymentRead sampleExternals goneAPI sampleWorld
        = ([], { Id := "", Sets := sampleWorld.Sets,
                 Calls := sampleWorld.Calls ++ [.waitForDeployment "fr-par" "t-1"] }) :=
  ⟨by decide, by decide,
    ((read_notFound_clears_id sampleExternals goneAPI sampleWorld "fr-par" "t-1"
      notFoundError rfl).2 rfl).1 (by decide)⟩

theorem triggerRead_calls (x : Externals) (api : RemoteAPI) (w : World) :
    ∃ extra, (ResourceContainerTriggerRead x api w).2.Calls = w.Calls ++ extra
      ∧ ∀ c ∈ extra, ∃ region id, c = APICall.waitForContainerTrigger region id := by
  unfold ResourceContainerTriggerRead NewAPIWithRegionAndID
  cases hp : x.ParseID w.Id with
  | error e => exact ⟨[], by simp, by simp⟩
  | ok p =>
    obtain ⟨region, id⟩ := p
    refine ⟨[.waitForContainerTrigger region id], ?_, ?_⟩
    · simp only [waitForContainerTrigger]
      cases hw : api.waitForContainerTrigger w.Calls with
      | error e =>
        by_cases h404 : x.Is404 e = true <;> simp [h404, World.SetId]
      | ok t => simp [World.Set]
    · intro c hc
      exact ⟨region, id, by simpa using hc⟩

theorem triggerUpdate_eq (h : Helpers) (x : Externals) (api : RemoteAPI)
    (d : ResourceData) (w : World) (region id : String) (trigger : Trigger)
    (hp : x.ParseID w.Id = .ok (region, id))
    (hw : api.waitForContainerTrigger w.Calls = .ok trigger) :
    ResourceContainerTriggerUpdate h x api d w
      = match api.UpdateTrigger (w.Calls ++ [.waitForContainerTrigger region id])
            { Region := region
              TriggerID := trigger.ID
              Name := if d.HasChange "name" then h.ExpandUpdatedStringPtr (d.Get "name")
                      else none
              Description :=
                if d.HasChange "description" then
                  h.ExpandUpdatedStringPtr (d.Get "description")
                else none } with
        | some err =>
          (FromErr x err,
            { Id := w.Id, Sets := w.Sets,
              Calls := w.Calls ++ [.waitForContainerTrigger region id] ++
                [.UpdateTrigger
                  { Region := region
                    TriggerID := trigger.ID
                    Name := if d.HasChange "name" then
                        h.ExpandUpdatedStringPtr (d.Get "name") else none
                    Description :=
                      if d.HasChange "description" then
                        h.ExpandUpdatedStringPtr (d.Get "description")
                      else none }] })
        | none =>
          ResourceContainerTriggerRead x api
            { Id := w.Id, Sets := w.Sets,
              Calls := w.Calls ++ [.waitForContainerTrigger region id] ++
                [.UpdateTrigger
                  { Region := region
                    TriggerID := trigger.ID
                    Name := if d.HasChange "name" then
                        h.ExpandUpdatedStringPtr (d.Get "name") else none
                    Description :=
                      if d.HasChange "description" then
                        h.ExpandUpdatedStringPtr (d.Get "description")
                      else none }] } := by
  unfold ResourceContainerTriggerUpdate NewAPIWithRegionAndID
  simp only [hp, waitForContainerTrigger, hw, UpdateTrigger]
  cases d.HasChange "name" <;> cases d.HasChange "description" <;>
    simp only [Bool.false_eq_true, if_false, if_true] <;> split <;> simp_all

/-- C14: every `UpdateTrigger` request that `ResourceContainerTriggerUpdate` sends has `Name`
unset unless `name` is reported changed and `Description` unset unless `description`
is; when neither is changed it carries only the region and the trigger ID. And the
request is sent, with the changed fields populated, whenever the identifier parses and
the waiter returns the trigger. -/
theorem update_trigger_request_frame (h : Helpers) (x : Externals) (api : RemoteAPI)
    (d : ResourceData) (w : World) :
    (∀ req, APICall.UpdateTrigger req ∈ (ResourceContainerTriggerUpdate h x api d w).2.Calls →
      APICall.UpdateTrigger req ∈ w.Calls
      ∨ ((d.HasChange "name" = false → req.Name = none)
          ∧ (d.HasChange "description" = false → req.Description = none)
          ∧ (d.HasChange "name" = false → d.HasChange "description" = false →
              ∃ region id trigger, x.ParseID w.Id = .ok (region, id)
                ∧ api.waitForContainerTrigger w.Calls = .ok trigger
                ∧ req = { Region := region, TriggerID := trigger.ID })))
    ∧ (∀ region id trigger, x.ParseID w.Id = .ok (region, id) →
        api.waitForContainerTrigger w.Calls = .ok trigger →
        APICall.UpdateTrigger
            { Region := region
              TriggerID := trigger.ID
              Name := if d.HasChange "name" then h.ExpandUpdatedStringPtr (d.Get "name")
                      else none
              Description :=
                if d.HasChange "description" then
                  h.ExpandUpdatedStringPtr (d.Get "description")
                else none }
          ∈ (ResourceContainerTriggerUpdate h x api d w).2.Calls) := by
  constructor
  · intro req hreq
    cases hp : x.ParseID w.Id with
    | error e =>
      left
      simpa [ResourceContainerTriggerUpdate, NewAPIWithRegionAndID, hp] using hreq
    | ok p =>
      obtain ⟨region, id⟩ := p
      cases hw : api.waitForContainerTrigger w.Calls with
      | error e =>
        left
        by_cases h404 : x.Is404 e = true <;>
          simpa [ResourceContainerTriggerUpdate, NewAPIWithRegionAndID, hp,
            waitForContainerTrigger, hw, h404, World.SetId] using hreq
      | ok t =>
        rw [triggerUpdate_eq h x api d w region id t hp hw] at hreq
        have hmem : APICall.UpdateTrigger req ∈ w.Calls
            ∨ req = { Region := region
                      TriggerID := t.ID
                      Name := if d.HasChange "name" then
                          h.ExpandUpdatedStringPtr (d.Get "name") else none
                      Description :=
                        if d.HasChange "description" then
                          h.ExpandUpdatedStringPtr (d.Get "description")
                        else none } := by
          split at hreq
          · simpa using hreq
          · obtain ⟨extra, hcalls, hextra⟩ := triggerRead_calls x api
              { Id := w.Id, Sets := w.Sets,
                Calls := w.Calls ++ [.waitForContainerTrigger region id] ++
                  [.UpdateTrigger
                    { Region := region
                      TriggerID := t.ID
                      Name := if d.HasChange "name" then
                          h.ExpandUpdatedStringPtr (d.Get "name") else none
                      Description :=
                        if d.HasChange "description" then
                          h.ExpandUpdatedStringPtr (d.Get "description")
                        else none }] }
            rw [hcalls] at hreq
            simp only [List.mem_append, List.mem_singleton, APICall.UpdateTrigger.injEq,
              reduceCtorEq, or_false] at hreq
            rcases hreq with (h1 | h1) | h1
            · exact Or.inl h1
            · exact Or.inr h1
            · obtain ⟨r, i, hri⟩ := hextra _ h1
              cases hri
        rcases hmem with hmem | hmem
        · exact Or.inl hmem
        · right
          subst hmem
          refine ⟨fun hn => by simp [hn], fun hd => by simp [hd], fun hn hd => ?_⟩
          exact ⟨region, id, t, rfl, rfl, by simp [hn, hd]⟩
  · intro region id trigger hp hw
    rw [triggerUpdate_eq h x api d w region id trigger hp hw]
    split
    · simp
    · obtain ⟨extra, hcalls, _⟩ := triggerRead_calls x api
        { Id := w.Id, Sets := w.Sets,
          Calls := w.Calls ++ [.waitForContainerTrigger region id] ++
            [.UpdateTrigger
              { Region := region
                TriggerID := trigger.ID
                Name := if d.HasChange "name" then
                    h.ExpandUpdatedStringPtr (d.Get "name") else none
                Description :=
                  if d.HasChange "description" then
                    h.ExpandUpdatedStringPtr (d.Get "description")
                  else none }] }
      rw [hcalls]
      simp

theorem update_trigger_request_frame_witness :
    (ResourceContainerTriggerUpdate sampleHelpers sampleExternals liveAPI
        sampleDescriptionChanged sampleWorld).2.Calls
      = [.waitForContainerTrigger "fr-par" "t-1",
         .UpdateTrigger { Region := "fr-par", TriggerID := "t-1", Name := none,
                          Description := some "nightly" },
         .waitForContainerTrigger "fr-par" "t-1"]
    ∧ APICall.UpdateTrigger
          { Region := "fr-par", TriggerID := "t-1",
            Name := if sampleDescriptionChanged.HasChange "name" then
                sampleHelpers.ExpandUpdatedStringPtr (sampleDescriptionChanged.Get "name")
              else none
            Description := if sampleDescriptionChanged.HasChange "description" then
                sampleHelpers.ExpandUpdatedStringPtr (sampleDescriptionChanged.Get "description")
              else none }
        ∈ (ResourceContainerTriggerUpdate sampleHelpers sampleExternals liveAPI
            sampleDescriptionChanged sampleWorld).2.Calls :=
  ⟨by decide,
    (update_trigger_request_frame sampleHelpers sampleExternals liveAPI
      sampleDescriptionChanged sampleWorld).2 "fr-par" "t-1" sampleTrigger rfl rfl⟩

theorem triggerDelete_calls (x : Externals) (api : RemoteAPI) (w : World) :
    (∃ err, x.ParseID w.Id = .error err
        ∧ (ResourceContainerTriggerDelete x api w).2.Calls = w.Calls)
    ∨ (∃ region id err, x.ParseID w.Id = .ok (region, id)
        ∧ api.waitForContainerTrigger w.Calls = .error err
        ∧ (ResourceContainerTriggerDelete x api w).2.Calls
            = w.Calls ++ [.waitForContainerTrigger region id])
    ∨ (∃ region id trigger, x.ParseID w.Id = .ok (region, id)
        ∧ api.waitForContainerTrigger w.Calls = .ok trigger
        ∧ ((ResourceContainerTriggerDelete x api w).2.Calls
              = w.Calls ++ [.waitForContainerTrigger region id,
                  .DeleteTrigger { Region := region, TriggerID := id }]
            ∨ (ResourceContainerTriggerDelete x api w).2.Calls
              = w.Calls ++ [.waitForContainerTrigger region id,
                  .DeleteTrigger { Region := region, TriggerID := id },
                  .waitForContainerTrigger region id])) := by
  unfold ResourceContainerTriggerDelete NewAPIWithRegionAndID
  cases hp : x.ParseID w.Id with
  | error e => exact Or.inl ⟨e, rfl, rfl⟩
  | ok p =>
    obtain ⟨region, id⟩ := p
    right
    simp only [waitForContainerTrigger]
    cases hw : api.waitForContainerTrigger w.Calls with
    | error e => exact Or.inl ⟨region, id, e, rfl, rfl, rfl⟩
    | ok t =>
      right
      refine ⟨region, id, t, rfl, rfl, ?_⟩
      simp only [DeleteTrigger]
      cases hd : api.DeleteTrigger (w.Calls ++ [.waitForContainerTrigger region id])
          { Region := region, TriggerID := id } with
      | some e => simp
      | none =>
        right
        simp only [List.append_assoc, List.singleton_append]
        cases hw2 : api.waitForContainerTrigger
            (w.Calls ++ [.waitForContainerTrigger region id,
              .DeleteTrigger { Region := region, TriggerID := id }]) with
        | error e => by_cases h404 : x.Is404 e = true <;> simp [h404]
        | ok t2 => simp

/-- C17 fails on the code: with the trigger already gone, the wait that precedes the delete
call reports not-found, and `ResourceContainerTriggerDelete` returns that error as an
error diagnostic without calling `DeleteTrigger`. -/
theorem triggerDelete_reports_notFound :
    sampleExternals.Is404 notFoundError = true
    ∧ goneAPI.waitForContainerTrigger sampleWorld.Calls = .error notFoundError
    ∧ (ResourceContainerTriggerDelete sampleExternals goneAPI sampleWorld).1
        = [{ Severity := .Error, Summary := "resource is not found", Detail := "" }]
    ∧ (ResourceContainerTriggerDelete sampleExternals goneAPI sampleWorld).2.Calls
        = [.waitForContainerTrigger "fr-par" "t-1"] :=
  ⟨by decide, rfl, by decide, by decide⟩

/-- C18: in `ResourceContainerTriggerDelete`, once the first wait and the `DeleteTrigger` call
have succeeded, an error of the second wait that `Is404` recognises gives no
diagnostics and any other error of the second wait is returned as one error
diagnostic; and the calls of a run are nothing, the first wait alone, or the first
wait followed by one `DeleteTrigger` and possibly the second wait: `DeleteTrigger` is
called at most once, and only after the first wait returned the trigger. -/
theorem triggerDelete_second_wait (x : Externals) (api : RemoteAPI) (w : World) :
    (∀ region id trigger err, x.ParseID w.Id = .ok (region, id) →
      api.waitForContainerTrigger w.Calls = .ok trigger →
      api.DeleteTrigger (w.Calls ++ [.waitForContainerTrigger region id])
          { Region := region, TriggerID := id } = none →
      api.waitForContainerTrigger
          (w.Calls ++ [.waitForContainerTrigger region id,
            .DeleteTrigger { Region := region, TriggerID := id }]) = .error err →
      (x.Is404 err = true → (ResourceContainerTriggerDelete x api w).1 = [])
      ∧ (x.Is404 err = false →
          (ResourceContainerTriggerDelete x api w).1
            = [{ Severity := .Error, Summary := x.ErrorText err, Detail := "" }]))
    ∧ (∃ made, (ResourceContainerTriggerDelete x api w).2.Calls = w.Calls ++ made
        ∧ made.countP (fun c => match c with | .DeleteTrigger _ => true | _ => false) ≤ 1
        ∧ (∀ req, APICall.DeleteTrigger req ∈ made →
            ∃ region id trigger rest, x.ParseID w.Id = .ok (region, id)
              ∧ api.waitForContainerTrigger w.Calls = .ok trigger
              ∧ req = { Region := region, TriggerID := id }
              ∧ made = .waitForContainerTrigger region id :: .DeleteTrigger req :: rest)) := by
  constructor
  · intro region id trigger err hp hw hd hw2
    constructor
    · intro h404
      simp [ResourceContainerTriggerDelete, NewAPIWithRegionAndID, hp, waitForContainerTrigger,
        hw, DeleteTrigger, hd, hw2, h404]
    · intro h404
      simp [ResourceContainerTriggerDelete, NewAPIWithRegionAndID, hp, waitForContainerTrigger,
        hw, DeleteTrigger, hd, hw2, h404, FromErr]
  · rcases triggerDelete_calls x api w with ⟨err, _, hc⟩ | ⟨region, id, err, _, _, hc⟩
        | ⟨region, id, trigger, hp, hw, hc | hc⟩
    · exact ⟨[], by simpa using hc, by simp, by simp⟩
    · exact ⟨_, hc, by simp [List.countP_cons], by simp⟩
    · refine ⟨_, hc, by simp [List.countP_cons], ?_⟩
      intro req hreq
      simp only [List.mem_cons, reduceCtorEq, APICall.DeleteTrigger.injEq, List.mem_singleton,
        false_or, List.not_mem_nil, or_false] at hreq
      subst hreq
      exact ⟨region, id, trigger, [], hp, hw, rfl, rfl⟩
    · refine ⟨_, hc, by simp [List.countP_cons], ?_⟩
      intro req hreq
      simp only [List.mem_cons, reduceCtorEq, APICall.DeleteTrigger.injEq, List.mem_singleton,
        false_or, List.not_mem_nil, or_false] at hreq
      subst hreq
      exact ⟨region, id, trigger, _, hp, hw, rfl, rfl⟩

theorem triggerDelete_second_wait_witness :
    (ResourceContainerTriggerDelete sampleExternals liveAPI sampleWorld).1 = []
    ∧ (ResourceContainerTriggerDelete sampleExternals liveAPI sampleWorld).2.Calls
        = [.waitForContainerTrigger "fr-par" "t-1",
           .DeleteTrigger { Region := "fr-par", TriggerID := "t-1" },
           .waitForContainerTrigger "fr-par" "t-1"] :=
  ⟨((triggerDelete_second_wait sampleExternals liveAPI sampleWorld).1 "fr-par" "t-1"
      sampleTrigger notFoundError rfl rfl rfl rfl).1 (by decide),
    by decide⟩

/-- C16 fails on the code: with `min_size = 2` and `max_size = 5` declared, the request that
`ResourceDeploymentCreate` sends to `CreateDeployment` has `MinSize` unset and `MaxSize`
set to 2, the value of `min_size`. -/
theorem deploymentCreate_min_size_in_max_slot :
    sampleSizes.GetOk "min_size" = (.int 2, true)
    ∧ sampleSizes.GetOk "max_size" = (.int 5, true)
    ∧ (ResourceDeploymentCreate sampleBuilderHelpers sampleExternals goneAPI sampleSizes
          { Id := "", Sets := [], Calls := [] }).toOption.map (fun r => r.2.Calls)
        = some [.CreateDeployment
            { Region := "fr-par", ProjectID := "p-1", Name := "llm", NodeType := "L4",
              ModelName := "llama", Tags := [], AcceptEula := none, MinSize := none,
              MaxSize := some 2,
              Endpoints := [{ Public := none, PrivateNetwork := none, DisableAuth := false }] }] := by
  refine ⟨rfl, rfl, ?_⟩
  decide

/-! ## The retry wrapper: short timeouts -/

/-- C19, as stated, fails: with a zero timeout the one call is made at time 0, before a
retry interval has elapsed. -/
theorem retryCreateContainerDomain_calls_before_interval :
    retryCreateContainerDomain slowTransientCall (fun _ => false) 0
      = some { domain := none
               err := some (.responseError 400 "could not validate domain: no such host")
               calls := 1
               lastStart := 0
               elapsed := 100000000000
               afterTimeout := true }
    ∧ 0 < DefaultContainerRetryInterval := by
  decide

/-- C19, amended: a retry-case call never starts before one full retry interval has
elapsed, and no call starts before the earlier of the retry interval and the timeout;
when the timeout is shorter than the retry interval (a zero or negative timeout
included), exactly one call is made, at the timeout, as the timeout-case call, and
its pair is returned even if it is the transient DNS error. -/
theorem retryCreateContainerDomain_short_timeout
    (CreateDomain : Nat → CallResult) (tie : Nat → Bool) (timeout : Int) :
    (timeout.toNat < DefaultContainerRetryInterval →
      retryCreateContainerDomain CreateDomain tie timeout
        = some { domain := (CreateDomain 0).domain
                 err := (CreateDomain 0).err
                 calls := 1
                 lastStart := timeout.toNat
                 elapsed := timeout.toNat + (CreateDomain 0).duration
                 afterTimeout := true })
    ∧ (∀ r, retryCreateContainerDomain CreateDomain tie timeout = some r →
        min DefaultContainerRetryInterval timeout.toNat ≤ r.lastStart
        ∧ (r.afterTimeout = false → DefaultContainerRetryInterval ≤ r.lastStart)
        ∧ (2 ≤ r.calls → DefaultContainerRetryInterval ≤ timeout.toNat)) := by
  obtain ⟨r, hr, hcalls, hdom, herr, hel, hearlier, hretry, hto⟩ :=
    retryCreateContainerDomain_spec CreateDomain tie timeout
  constructor
  · intro hshort
    have hone : r.calls = 1 := by
      by_contra hne
      have := retryCaseAt_le _ _ _ _ (hearlier 0 (by omega)).2
      simp only [selectTime] at this
      omega
    have hat : r.afterTimeout = true := by
      cases hat : r.afterTimeout with
      | true => rfl
      | false =>
        have := retryCaseAt_le _ _ _ _ (hretry hat).2.1
        omega
    have hstart := (hto hat).1
    rw [hone] at hdom herr hel hstart
    simp only [Nat.sub_self, selectTime, Nat.zero_max] at hdom herr hel hstart
    rw [hr]
    rcases r with ⟨d, e, c, ls, el, at'⟩
    simp only at hdom herr hel hstart hone hat
    subst hdom herr hone hat hstart
    rw [hel]
  · intro r' hr'
    rw [hr] at hr'
    cases hr'
    refine ⟨?_, ?_, ?_⟩
    · cases hat : r.afterTimeout with
      | false =>
        have := (hretry hat).1
        omega
      | true =>
        have := (hto hat).1
        have := Nat.le_max_right (selectTime CreateDomain (r.calls - 1)) timeout.toNat
        omega
    · intro hat
      have := (hretry hat).1
      omega
    · intro h2
      have := retryCaseAt_le _ _ _ _ (hearlier 0 (by omega)).2
      simp only [selectTime] at this
      omega

theorem retryCreateContainerDomain_short_timeout_witness :
    retryCreateContainerDomain slowTransientCall (fun _ => true) 3000000000
      = some { domain := (slowTransientCall 0).domain
               err := (slowTransientCall 0).err
               calls := 1
               lastStart := (3000000000 : Int).toNat
               elapsed := (3000000000 : Int).toNat + (slowTransientCall 0).duration
               afterTimeout := true } :=
  (retryCreateContainerDomain_short_timeout slowTransientCall (fun _ => true) 3000000000).1
    (by decide)

/-! ## The secret patch filter: hashed keys -/

/-- C20: when the keys of `newEnv` are distinct, a key that `newEnv` carries with a hashed
placeholder value occurs in no entry of the output of `filterSecretEnvsToPatch`: it is
neither submitted again nor deleted, whatever `oldEnv` holds. -/
theorem filterSecretEnvsToPatch_hashed_key_absent (oldEnv newEnv : List Secret)
    (key value : String) (hnodup : (newEnv.map (fun s => s.Key)).Nodup)
    (hmem : (⟨key, some value⟩ : Secret) ∈ newEnv)
    (hhash : HasPrefix value "$argon2id" = true) :
    ∀ e ∈ filterSecretEnvsToPatch oldEnv newEnv, e.Key ≠ key := by
  intro e he hk
  rcases (mem_filterSecretEnvsToPatch oldEnv newEnv e).1 he with ⟨hin, hun⟩ | ⟨_, _, hn⟩
  · have heq : e = ⟨key, some value⟩ :=
      List.inj_on_of_nodup_map hnodup hin hmem hk
    rw [heq] at hun
    simp only [isHashedPlaceholder, hashedMarker] at hun
    rw [hhash] at hun
    cases hun
  · exact hn _ hmem hk.symm

theorem filterSecretEnvsToPatch_hashed_key_absent_witness :
    filterSecretEnvsToPatch [⟨"A", some "x"⟩, ⟨"B", some "y"⟩]
        [⟨"A", some "$argon2id$v=19"⟩, ⟨"C", some "z"⟩]
      = [⟨"C", some "z"⟩, ⟨"B", none⟩]
    ∧ (⟨"C", some "z"⟩ : Secret).Key ≠ "A" :=
  ⟨by decide,
    filterSecretEnvsToPatch_hashed_key_absent [⟨"A", some "x"⟩, ⟨"B", some "y"⟩]
      [⟨"A", some "$argon2id$v=19"⟩, ⟨"C", some "z"⟩] "A" "$argon2id$v=19"
      (by decide) (by decide) (by decide) ⟨"C", some "z"⟩ (by decide)⟩

/-! ### Auxiliary facts about builders that stop -/

theorem onlyPanics_pure {α : Type} (a : α) : OnlyPanics (pure a : Except Failure α) := by
  intro e he
  cases he

theorem onlyPanics_orPanic {α : Type} (o : Option α) : OnlyPanics (orPanic o) := by
  intro e he
  cases o with
  | none =>
    cases he
    rfl
  | some a => cases he

theorem onlyPanics_bind {α β : Type} (m : Except Failure α) (f : α → Except Failure β)
    (hm : OnlyPanics m) (hf : ∀ a, OnlyPanics (f a)) : OnlyPanics (m >>= f) := by
  intro e he
  cases m with
  | error e' =>
    cases he
    exact hm _ rfl
  | ok a => exact hf a e he

theorem onlyPanics_ite {α : Type} (c : Bool) (m₁ m₂ : Except Failure α)
    (h₁ : OnlyPanics m₁) (h₂ : OnlyPanics m₂) :
    OnlyPanics (if c = true then m₁ else m₂) := by
  cases c with
  | true => simpa using h₁
  | false => simpa using h₂

theorem onlyPanics_expandContainerSecrets (x : Helpers) (v : Value) :
    OnlyPanics (expandContainerSecrets x v) := by
  intro e he
  unfold expandContainerSecrets at he
  split at he
  · cases he
  · cases he
    rfl

theorem onlyPanics_expandHealthCheckList (x : Helpers) (items : List Value) :
    OnlyPanics (expandHealthCheckList x items) := by
  induction items with
  | nil => exact onlyPanics_pure _
  | cons v vs ih =>
    cases v with
    | map m =>
      rw [expandHealthCheckList]
      refine onlyPanics_bind _ _ (onlyPanics_orPanic _) (fun _ => ?_)
      dsimp only
      repeat' first
        | exact onlyPanics_pure _
        | exact onlyPanics_bind _ _ (onlyPanics_orPanic _) (fun _ => onlyPanics_pure _)
        | split
    | _ => simpa [expandHealthCheckList] using ih

theorem onlyPanics_expandHealthCheck (x : Helpers) (v : Value) :
    OnlyPanics (expandHealthCheck x v) := by
  unfold expandHealthCheck
  split
  · exact onlyPanics_expandHealthCheckList x _
  · exact onlyPanics_pure _

theorem healthCheckBlock_stops {α β : Type} (x : Helpers) (err : GoError) (active : Bool)
    (v : Value) (g : Option ContainerHealthCheckSpec → α) (r : α) (e : Failure)
    (he : (if active = true then
            (expandHealthCheck x v >>= fun p =>
              match p with
              | (_, some e') => (throw (Failure.returned e') : Except Failure α)
              | (spec, none) => pure (g spec))
          else pure r) = .error e) :
    StopsWith x err active v (.error e : Except Failure β) := by
  cases active with
  | false => cases he
  | true =>
    simp only [if_true] at he
    cases hx : expandHealthCheck x v with
    | error f =>
      rw [hx] at he
      cases he
      rw [onlyPanics_expandHealthCheck x v _ hx]
      exact Or.inr (Or.inl rfl)
    | ok p =>
      rw [hx] at he
      obtain ⟨spec, oe⟩ := p
      cases oe with
      | none => cases he
      | some e' =>
        cases he
        exact Or.inr (Or.inr ⟨rfl, spec, e', hx, rfl⟩)

theorem stopsWith_bind_of {α β : Type} (x : Helpers) (err : GoError) (active : Bool)
    (healthCheck : Value) (m : Except Failure α) (f : α → Except Failure β)
    (hm : ∀ e, m = .error e →
      StopsWith x err active healthCheck (.error e : Except Failure β))
    (hf : ∀ a, StopsWith x err active healthCheck (f a)) :
    StopsWith x err active healthCheck (m >>= f) := by
  cases m with
  | error e => exact hm e rfl
  | ok a => exact hf a

theorem stopsWith_bind {α β : Type} (x : Helpers) (err : GoError) (active : Bool)
    (healthCheck : Value) (m : Except Failure α) (f : α → Except Failure β)
    (hm : OnlyPanics m) (hf : ∀ a, StopsWith x err active healthCheck (f a)) :
    StopsWith x err active healthCheck (m >>= f) := by
  refine stopsWith_bind_of x err active healthCheck m f ?_ hf
  intro e he
  rw [hm e he]
  exact Or.inr (Or.inl rfl)

theorem expandScalingOptions_several (pre rest : List Value)
    (rawOption : List (String × Value))
    (hpre : ∀ v ∈ pre, ∀ m, v ≠ Value.map m)
    (hset : 1 < thresholdsSet rawOption) :
    expandScalingOptions (.set (pre ++ .map rawOption :: rest))
      = (some {}, some (.errorString "a maximum of one scaling option can be set")) := by
  unfold expandScalingOptions
  simp only []
  rw [expandScalingOptionsList_skip pre _ hpre]
  unfold thresholdsSet thresholdIsSet at hset
  unfold expandScalingOptionsList
  generalize assertInt (mapIndex rawOption "concurrent_requests_threshold") = a₁ at hset ⊢
  generalize assertInt (mapIndex rawOption "cpu_usage_threshold") = a₂ at hset ⊢
  generalize assertInt (mapIndex rawOption "memory_usage_threshold") = a₃ at hset ⊢
  cases a₁ <;> cases a₂ <;> cases a₃ <;> simp at hset ⊢ <;> split_ifs at hset ⊢ <;>
    simp_all

theorem setUpdateContainerRequest_stops (x : Helpers) (d : ResourceData)
    (region containerID : String) (spec : Option ContainerScalingOption) (err : GoError)
    (hchanged : d.HasChange "scaling_option" = true)
    (hexp : expandScalingOptions (d.Get "scaling_option") = (spec, some err)) :
    StopsWith x err (d.HasChange "health_check") (d.Get "health_check")
      (setUpdateContainerRequest x d region containerID) := by
  unfold setUpdateContainerRequest
  iterate 17
    refine stopsWith_bind x err _ _ _ _ ?_ (fun r => ?_)
    · first
        | exact onlyPanics_ite _ _ _ (onlyPanics_pure _) (onlyPanics_pure _)
        | exact onlyPanics_ite _ _ _
            (onlyPanics_bind _ _ (onlyPanics_orPanic _) (fun _ => onlyPanics_pure _))
            (onlyPanics_pure _)
        | exact onlyPanics_ite _ _ _
            (onlyPanics_bind _ _ (onlyPanics_expandContainerSecrets _ _)
              (fun _ => onlyPanics_bind _ _ (onlyPanics_expandContainerSecrets _ _)
                (fun _ => onlyPanics_pure _)))
            (onlyPanics_pure _)
  refine stopsWith_bind_of x err _ _ _ _ (fun e he => ?_) (fun r => ?_)
  · exact healthCheckBlock_stops x err _ _ _ _ e he
  simp only [hchanged, if_true, hexp]
  exact Or.inl rfl

theorem setCreateContainerRequest_stops (x : BuilderHelpers) (d : ResourceData)
    (region : String) (spec : Option ContainerScalingOption) (err : GoError)
    (hset : (d.GetOk "scaling_option").2 = true)
    (hexp : expandScalingOptions (d.GetOk "scaling_option").1 = (spec, some err)) :
    StopsWith x.toHelpers err (d.GetOk "health_check").2 (d.GetOk "health_check").1
      (setCreateContainerRequest x d region) := by
  unfold setCreateContainerRequest
  iterate 16
    refine stopsWith_bind x.toHelpers err _ _ _ _ ?_ (fun r => ?_)
    · first
        | exact onlyPanics_orPanic _
        | exact onlyPanics_ite _ _ _ (onlyPanics_pure _) (onlyPanics_pure _)
        | exact onlyPanics_ite _ _ _
            (onlyPanics_bind _ _ (onlyPanics_orPanic _) (fun _ => onlyPanics_pure _))
            (onlyPanics_pure _)
        | exact onlyPanics_ite _ _ _
            (onlyPanics_bind _ _ (onlyPanics_expandContainerSecrets _ _)
              (fun _ => onlyPanics_pure _))
            (onlyPanics_pure _)
  refine stopsWith_bind_of x.toHelpers err _ _ _ _ (fun e he => ?_) (fun r => ?_)
  · exact healthCheckBlock_stops x.toHelpers err _ _ _ _ e he
  simp only [hset, if_true, hexp]
  exact Or.inl rfl

/-! ## Validation failures in the request builders -/

/-- C15, as stated, fails: with `health_check` and `scaling_option` both changed, a health
check whose interval is no duration and a scaling option with two thresholds,
`setUpdateContainerRequest` and `setCreateContainerRequest` return the error of
`expandHealthCheck`, not the scaling-option validation error. -/
theorem builders_return_earlier_error :
    expandScalingOptions (sampleTwoFailures.Get "scaling_option")
      = (some {}, some (.errorString "a maximum of one scaling option can be set"))
    ∧ setUpdateContainerRequest sampleHelpers sampleTwoFailures "fr-par" "c-1"
      = .error (.returned (.errorString "invalid duration"))
    ∧ setCreateContainerRequest sampleBuilderHelpers sampleTwoFailures "fr-par"
      = .error (.returned (.errorString "invalid duration")) :=
  ⟨rfl, rfl, rfl⟩

/-- C15, amended: when `scaling_option` is changed (`setUpdateContainerRequest`) or set
(`setCreateContainerRequest`) and its block has more than one threshold set, the
builder returns no request, whatever the other fields are; what it returns is the
validation error, unless an earlier block has stopped it: the error that
`expandHealthCheck` returns for a changed (or set) `health_check`, or a panic of a type
assertion or nil dereference. -/
theorem builders_stop_on_scaling_validation (x : BuilderHelpers) (d : ResourceData)
    (region containerID : String) (pre rest : List Value) (rawOption : List (String × Value))
    (hpre : ∀ v ∈ pre, ∀ m, v ≠ Value.map m) (hseveral : 1 < thresholdsSet rawOption) :
    (d.HasChange "scaling_option" = true →
      d.Get "scaling_option" = .set (pre ++ .map rawOption :: rest) →
      (∀ req, setUpdateContainerRequest x.toHelpers d region containerID ≠ .ok req)
      ∧ (setUpdateContainerRequest x.toHelpers d region containerID
            = .error (.returned (.errorString "a maximum of one scaling option can be set"))
          ∨ setUpdateContainerRequest x.toHelpers d region containerID = .error .panicked
          ∨ (d.HasChange "health_check" = true
              ∧ ∃ spec e, expandHealthCheck x.toHelpers (d.Get "health_check")
                    = .ok (spec, some e)
                  ∧ setUpdateContainerRequest x.toHelpers d region containerID
                    = .error (.returned e))))
    ∧ (d.GetOk "scaling_option" = (.set (pre ++ .map rawOption :: rest), true) →
      (∀ req, setCreateContainerRequest x d region ≠ .ok req)
      ∧ (setCreateContainerRequest x d region
            = .error (.returned (.errorString "a maximum of one scaling option can be set"))
          ∨ setCreateContainerRequest x d region = .error .panicked
          ∨ ((d.GetOk "health_check").2 = true
              ∧ ∃ spec e, expandHealthCheck x.toHelpers (d.GetOk "health_check").1
                    = .ok (spec, some e)
                  ∧ setCreateContainerRequest x d region = .error (.returned e)))) := by
  constructor
  · intro hchanged hget
    have hstop := setUpdateContainerRequest_stops x.toHelpers d region containerID (some {})
      (.errorString "a maximum of one scaling option can be set") hchanged
      (by rw [hget]; exact expandScalingOptions_several pre rest rawOption hpre hseveral)
    refine ⟨?_, hstop⟩
    intro req hreq
    rcases hstop with h | h | ⟨_, _, _, _, h⟩ <;> rw [h] at hreq <;> cases hreq
  · intro hget
    have hstop := setCreateContainerRequest_stops x d region (some {})
      (.errorString "a maximum of one scaling option can be set")
      (by rw [hget])
      (by rw [hget]; exact expandScalingOptions_several pre rest rawOption hpre hseveral)
    refine ⟨?_, hstop⟩
    intro req hreq
    rcases hstop with h | h | ⟨_, _, _, _, h⟩ <;> rw [h] at hreq <;> cases hreq

theorem builders_stop_on_scaling_validation_witness :
    setUpdateContainerRequest sampleHelpers sampleTwoThresholds "fr-par" "c-1"
      = .error (.returned (.errorString "a maximum of one scaling option can be set"))
    ∧ setCreateContainerRequest sampleBuilderHelpers sampleTwoThresholds "fr-par"
      = .error (.returned (.errorString "a maximum of one scaling option can be set"))
    ∧ ∀ req, setCreateContainerRequest sampleBuilderHelpers sampleTwoThresholds "fr-par"
        ≠ .ok req :=
  ⟨rfl, rfl,
    ((builders_stop_on_scaling_validation sampleBuilderHelpers sampleTwoThresholds "fr-par"
      "c-1" [] []
      [("concurrent_requests_threshold", .int 80), ("cpu_usage_threshold", .int 70)]
      (by simp) (by decide)).2 rfl).1⟩

/-! ## The scaling-option builder: at most one threshold -/

/-- C21, as stated, fails: a block whose only threshold is `cpu_usage_threshold = -1` has
exactly one threshold set, `expandScalingOptions` returns no error, and the slot is
populated with 4294967295, which is not the value of the threshold; with the threshold
4294967296 the slot is populated with 0, and with 4294967297 with 1. -/
theorem expandScalingOptions_wraps_threshold :
    thresholdsSet [("cpu_usage_threshold", .int (-1))] = 1
    ∧ expandScalingOptions (.set [.map [("cpu_usage_threshold", .int (-1))]])
        = (some { ConcurrentRequestsThreshold := none, CPUUsageThreshold := some 4294967295,
                  MemoryUsageThreshold := none }, none)
    ∧ ((4294967295 : Nat) : Int) ≠ -1
    ∧ thresholdsSet [("cpu_usage_threshold", .int 4294967296)] = 1
    ∧ expandScalingOptions (.set [.map [("cpu_usage_threshold", .int 4294967296)]])
        = (some { ConcurrentRequestsThreshold := none, CPUUsageThreshold := some 0,
                  MemoryUsageThreshold := none }, none)
    ∧ expandScalingOptions (.set [.map [("cpu_usage_threshold", .int 4294967297)]])
        = (some { ConcurrentRequestsThreshold := none, CPUUsageThreshold := some 1,
                  MemoryUsageThreshold := none }, none) := by
  decide

/-- C21, amended: when the scaling-option block (the first map of the set) has at most one
of the three thresholds set to a non-zero value, `expandScalingOptions` returns no error
and the option in which each slot holds its threshold converted to `uint32` if that
threshold is a non-zero `int`, and is absent otherwise; the conversion gives the value
modulo 4294967296, which is the value itself exactly when it lies between 0 and
4294967295. A threshold equal to 0 is absent. A value that is not a set, an empty set,
and a set without any map give the empty option and no error. -/
theorem expandScalingOptions_at_most_one (pre rest : List Value)
    (rawOption : List (String × Value))
    (hpre : ∀ v ∈ pre, ∀ m, v ≠ Value.map m)
    (hle : thresholdsSet rawOption ≤ 1) :
    expandScalingOptions (.set (pre ++ .map rawOption :: rest))
      = (some { ConcurrentRequestsThreshold :=
                  thresholdSlot rawOption "concurrent_requests_threshold"
                CPUUsageThreshold := thresholdSlot rawOption "cpu_usage_threshold"
                MemoryUsageThreshold := thresholdSlot rawOption "memory_usage_threshold" },
         none)
    ∧ (∀ key v, mapIndex rawOption key = .int v → v ≠ 0 →
        thresholdSlot rawOption key = some (uint32 v))
    ∧ (∀ key, thresholdIsSet rawOption key = false → thresholdSlot rawOption key = none)
    ∧ (∀ key, mapIndex rawOption key = .int 0 → thresholdSlot rawOption key = none)
    ∧ (∀ v : Int, 0 ≤ v → v < 4294967296 → (uint32 v : Int) = v)
    ∧ (∀ v : Int, (uint32 v : Int) = v % 4294967296)
    ∧ (∀ v : Int, (uint32 v : Int) = v ↔ (0 ≤ v ∧ v < 4294967296))
    ∧ (∀ v, (∀ items, v ≠ Value.set items) →
        expandScalingOptions v
          = (some { ConcurrentRequestsThreshold := none, CPUUsageThreshold := none,
                    MemoryUsageThreshold := none }, none))
    ∧ expandScalingOptions (.set [])
        = (some { ConcurrentRequestsThreshold := none, CPUUsageThreshold := none,
                  MemoryUsageThreshold := none }, none)
    ∧ expandScalingOptions (.set pre)
        = (some { ConcurrentRequestsThreshold := none, CPUUsageThreshold := none,
                  MemoryUsageThreshold := none }, none) := by
  refine ⟨?_, ?_, ?_, ?_, ?_, ?_, ?_, ?_, rfl, ?_⟩
  · unfold expandScalingOptions
    simp only []
    rw [expandScalingOptionsList_skip pre _ hpre]
    unfold thresholdsSet thresholdIsSet at hle
    unfold expandScalingOptionsList thresholdSlot
    generalize assertInt (mapIndex rawOption "concurrent_requests_threshold") = a₁ at hle ⊢
    generalize assertInt (mapIndex rawOption "cpu_usage_threshold") = a₂ at hle ⊢
    generalize assertInt (mapIndex rawOption "memory_usage_threshold") = a₃ at hle ⊢
    cases a₁ <;> cases a₂ <;> cases a₃ <;> simp at hle ⊢ <;> split_ifs at hle ⊢ <;>
      simp_all
  · intro key v hv hne
    simp [thresholdSlot, hv, assertInt, hne]
  · intro key hset
    unfold thresholdIsSet at hset
    unfold thresholdSlot
    cases h : assertInt (mapIndex rawOption key) with
    | none => rfl
    | some v =>
      rw [h] at hset
      simp only [decide_eq_false_iff_not, ne_eq, not_not] at hset
      simp [hset]
  · intro key hv
    simp [thresholdSlot, hv, assertInt]
  · intro v h0 hlt
    unfold uint32
    rw [Int.emod_eq_of_lt h0 hlt]
    exact Int.toNat_of_nonneg h0
  · intro v
    unfold uint32
    exact Int.toNat_of_nonneg (Int.emod_nonneg v (by decide))
  · intro v
    have hmod : (uint32 v : Int) = v % 4294967296 := by
      unfold uint32
      exact Int.toNat_of_nonneg (Int.emod_nonneg v (by decide))
    constructor
    · intro h
      rw [hmod] at h
      have h1 := Int.emod_nonneg v (show (4294967296 : Int) ≠ 0 by decide)
      have h2 := Int.emod_lt_of_pos v (show (0 : Int) < 4294967296 by decide)
      omega
    · rintro ⟨h0, hlt⟩
      rw [hmod]
      exact Int.emod_eq_of_lt h0 hlt
  · intro v hv
    unfold expandScalingOptions
    split
    · exact absurd rfl (hv _)
    · rfl
  · have := expandScalingOptionsList_skip pre [] hpre
    simp only [List.append_nil] at this
    unfold expandScalingOptions
    simp only []
    rw [this]
    rfl

theorem expandScalingOptions_at_most_one_witness :
    expandScalingOptions
        (.set ([.null] ++ .map [("concurrent_requests_threshold", .int 0),
                                ("cpu_usage_threshold", .int 70)] :: []))
      = (some { ConcurrentRequestsThreshold := none, CPUUsageThreshold := some 70,
                MemoryUsageThreshold := none }, none) :=
  (expandScalingOptions_at_most_one [.null] []
    [("concurrent_requests_threshold", .int 0), ("cpu_usage_threshold", .int 70)]
    (by simp) (by decide)).1

/-! ## The trigger read after a successful wait -/

/-- C23: when the identifier parses and the waiter returns the trigger,
`ResourceContainerTriggerRead` returns no error diagnostic: exactly one diagnostic of
severity `Warning`, with summary `Trigger in error state` and the error message of the
trigger (the empty string when it has none) as detail, if the status of the trigger
is the error status, and no diagnostic for any other status; in both cases `name` and
`description` are written to the state, and nothing else is. -/
theorem triggerRead_after_wait (x : Externals) (api : RemoteAPI) (w : World)
    (region id : String) (trigger : Trigger)
    (hid : x.ParseID w.Id = .ok (region, id))
    (hwait : api.waitForContainerTrigger w.Calls = .ok trigger) :
    (trigger.Status = TriggerStatusError →
      (ResourceContainerTriggerRead x api w).1
        = [{ Severity := .Warning, Summary := "Trigger in error state",
             Detail := trigger.ErrorMessage.getD "" }])
    ∧ (trigger.Status ≠ TriggerStatusError → (ResourceContainerTriggerRead x api w).1 = [])
    ∧ (∀ g ∈ (ResourceContainerTriggerRead x api w).1, g.Severity ≠ .Error)
    ∧ (ResourceContainerTriggerRead x api w).2
        = { Id := w.Id
            Sets := w.Sets ++ [("name", .str trigger.Name),
                               ("description", .str trigger.Description)]
            Calls := w.Calls ++ [.waitForContainerTrigger region id] } := by
  have hrun : ResourceContainerTriggerRead x api w
      = (if trigger.Status = TriggerStatusError then
          [{ Severity := .Warning, Summary := "Trigger in error state",
             Detail := trigger.ErrorMessage.getD "" }]
        else [],
        { Id := w.Id
          Sets := w.Sets ++ [("name", .str trigger.Name),
                             ("description", .str trigger.Description)]
          Calls := w.Calls ++ [.waitForContainerTrigger region id] }) := by
    cases hm : trigger.ErrorMessage <;>
      simp [ResourceContainerTriggerRead, NewAPIWithRegionAndID, hid, waitForContainerTrigger,
        hwait, World.Set, hm]
  rw [hrun]
  refine ⟨fun hs => by simp [hs], fun hs => by simp [hs], ?_, rfl⟩
  intro g hg
  by_cases hs : trigger.Status = TriggerStatusError
  · simp only [hs, if_true, List.mem_singleton] at hg
    subst hg
    simp
  · simp [hs] at hg

theorem triggerRead_after_wait_witness :
    (ResourceContainerTriggerRead sampleExternals failedTriggerAPI sampleWorld).1
      = [{ Severity := .Warning, Summary := "Trigger in error state",
           Detail := "queue not found" }]
    ∧ (ResourceContainerTriggerRead sampleExternals liveAPI sampleWorld).1 = [] :=
  ⟨(triggerRead_after_wait sampleExternals failedTriggerAPI sampleWorld "fr-par" "t-1"
      failedTrigger rfl rfl).1 rfl,
    (triggerRead_after_wait sampleExternals liveAPI sampleWorld "fr-par" "t-1"
      sampleTrigger rfl rfl).2.1 (by decide)⟩

/-! ## The DocumentDB endpoint creation -/

theorem string_length_pos (s : String) (h : s ≠ "") : s.length > 0 := by
  rcases s with ⟨l⟩
  cases l with
  | nil => exact absurd rfl h
  | cons c cs => simp [String.length]

theorem endpointRead_calls (t : documentdb.Helpers) (x : Externals) (api : documentdb.API)
    (w : documentdb.World) :
    ∃ extra, (resourceDocumentDBInstanceEndpointRead t x api w).2.Calls = w.Calls ++ extra
      ∧ ∀ c ∈ extra, ∃ region id, c = documentdb.Call.GetEndpoint region id := by
  unfold resourceDocumentDBInstanceEndpointRead NewAPIWithRegionAndID
  cases hp : x.ParseID w.Id with
  | error e => exact ⟨[], by simp, by simp⟩
  | ok p =>
    obtain ⟨region, id⟩ := p
    refine ⟨[.GetEndpoint region id], ?_, ?_⟩
    · simp only [documentdb.GetEndpoint]
      cases hg : api.GetEndpoint w.Calls region id with
      | error e =>
        by_cases h404 : x.Is404 e = true <;> simp [h404, documentdb.World.SetId]
      | ok endpoint =>
        simp only []
        cases endpoint.PrivateNetwork with
        | none => rfl
        | some details =>
          simp only []
          cases t.FlattenIPNet details.ServiceIP with
          | error e => rfl
          | ok serviceIP =>
            simp only []
            split <;> simp [documentdb.World.Set]
    · intro c hc
      exact ⟨region, id, by simpa using hc⟩

/-- What a run of the creation does to the call log: nothing, the first wait alone, or the
first wait followed by the `CreateEndpoint` call with the request built from `ip_net`
and by calls that are no `CreateEndpoint`. -/
theorem endpointCreate_calls (h : Helpers) (t : documentdb.Helpers) (x : Externals)
    (api : documentdb.API) (d : ResourceData) (w : documentdb.World) :
    (resourceDocumentDBInstanceEndpointCreate h t x api d w).2.Calls = w.Calls
    ∨ ∃ region m rest id ipNet pn tail,
        x.ExtractRegion d = .ok region
        ∧ d.Get "private_network" = .list (.map m :: rest)
        ∧ assertString (mapIndex m "id") = some id
        ∧ assertString (mapIndex m "ip_net") = some ipNet
        ∧ pn.PrivateNetworkID = h.ExpandID (.str id)
        ∧ (ipNet = "" → pn.ServiceIP = none ∧ pn.IpamConfig = some ())
        ∧ (ipNet ≠ "" → ∃ ip, t.ExpandIPNet ipNet = .ok ip
            ∧ pn.ServiceIP = some ip ∧ pn.IpamConfig = none)
        ∧ (∀ c ∈ tail, ∀ req, c ≠ documentdb.Call.CreateEndpoint req)
        ∧ ((resourceDocumentDBInstanceEndpointCreate h t x api d w).2.Calls
              = w.Calls ++
                [.waitForDocumentDBInstance region (h.ExpandID (d.Get "instance_id"))]
          ∨ (resourceDocumentDBInstanceEndpointCreate h t x api d w).2.Calls
              = w.Calls ++
                [.waitForDocumentDBInstance region (h.ExpandID (d.Get "instance_id")),
                 .CreateEndpoint
                   { Region := region
                     InstanceID := h.ExpandID (d.Get "instance_id")
                     EndpointSpec := some { PrivateNetwork := some pn } }] ++ tail) := by
  unfold resourceDocumentDBInstanceEndpointCreate
  cases hr : x.ExtractRegion d with
  | error e => exact Or.inl rfl
  | ok region =>
    simp only []
    split
    · rename_i m rest hget
      cases hid : assertString (mapIndex m "id") with
      | none => exact Or.inl rfl
      | some id =>
        cases hip : assertString (mapIndex m "ip_net") with
        | none => exact Or.inl rfl
        | some ipNet =>
          simp only []
          split
          · exact Or.inl rfl
          · rename_i pn hexp
            have hpn : pn.PrivateNetworkID = h.ExpandID (.str id)
                ∧ (ipNet = "" → pn.ServiceIP = none ∧ pn.IpamConfig = some ())
                ∧ (ipNet ≠ "" → ∃ ip, t.ExpandIPNet ipNet = .ok ip
                    ∧ pn.ServiceIP = some ip ∧ pn.IpamConfig = none) := by
              by_cases hempty : ipNet = ""
              · subst hempty
                simp only [String.length, List.length_nil, gt_iff_lt, Nat.lt_irrefl, if_false,
                  Except.ok.injEq] at hexp
                subst hexp
                simp
              · have hpos := string_length_pos ipNet hempty
                simp only [hpos, if_true] at hexp
                cases hx : t.ExpandIPNet ipNet with
                | error e =>
                  rw [hx] at hexp
                  cases hexp
                | ok ip =>
                  rw [hx] at hexp
                  simp only [Except.ok.injEq] at hexp
                  subst hexp
                  simp [hempty]
            simp only [waitForDocumentDBInstance, documentdb.CreateEndpoint]
            right
            cases hw1 : api.waitForDocumentDBInstance w.Calls with
            | some e =>
              refine ⟨region, m, rest, id, ipNet, pn, [], rfl, hget, hid, hip, hpn.1, hpn.2.1,
                hpn.2.2, by simp, Or.inl ?_⟩
              by_cases h404 : x.Is404 e = true <;> simp [h404, documentdb.World.SetId]
            | none =>
              simp only []
              cases hc : api.CreateEndpoint
                  (w.Calls ++
                    [.waitForDocumentDBInstance region (h.ExpandID (d.Get "instance_id"))])
                  { Region := region, InstanceID := h.ExpandID (d.Get "instance_id"),
                    EndpointSpec := some { PrivateNetwork := some pn } } with
              | error e =>
                exact ⟨region, m, rest, id, ipNet, pn, [], rfl, hget, hid, hip, hpn.1, hpn.2.1,
                  hpn.2.2, by simp, Or.inr (by simp)⟩
              | ok endpoint =>
                simp only [List.append_assoc, List.singleton_append, List.cons_append,
                  List.nil_append]
                cases hw2 : api.waitForDocumentDBInstance
                    (w.Calls ++
                      [.waitForDocumentDBInstance region (h.ExpandID (d.Get "instance_id")),
                       .CreateEndpoint
                        { Region := region, InstanceID := h.ExpandID (d.Get "instance_id"),
                          EndpointSpec := some { PrivateNetwork := some pn } }]) with
                | some e =>
                  refine ⟨region, m, rest, id, ipNet, pn,
                    [.waitForDocumentDBInstance region (h.ExpandID (d.Get "instance_id"))],
                    rfl, hget, hid, hip, hpn.1, hpn.2.1, hpn.2.2, by simp, Or.inr ?_⟩
                  by_cases h404 : x.Is404 e = true <;> simp [h404, documentdb.World.SetId]
                | none =>
                  simp only []
                  obtain ⟨extra, hcalls, hextra⟩ := endpointRead_calls t x api
                    (documentdb.World.SetId
                      { Id := w.Id, Sets := w.Sets,
                        Calls := w.Calls ++
                          [.waitForDocumentDBInstance region (h.ExpandID (d.Get "instance_id")),
                           .CreateEndpoint
                            { Region := region, InstanceID := h.ExpandID (d.Get "instance_id"),
                              EndpointSpec := some { PrivateNetwork := some pn } },
                           .waitForDocumentDBInstance region
                            (h.ExpandID (d.Get "instance_id"))] }
                      (x.NewIDString region endpoint.ID))
                  refine ⟨region, m, rest, id, ipNet, pn,
                    .waitForDocumentDBInstance region (h.ExpandID (d.Get "instance_id"))
                      :: extra,
                    rfl, hget, hid, hip, hpn.1, hpn.2.1, hpn.2.2, ?_, Or.inr ?_⟩
                  · intro c hc req hreq
                    subst hreq
                    simp only [List.mem_cons, reduceCtorEq, false_or] at hc
                    obtain ⟨r, i, hri⟩ := hextra _ hc
                    cases hri
                  · rw [hcalls]
                    simp [documentdb.World.SetId]
    · exact Or.inl rfl
    · exact Or.inl rfl

/-- C22: every `CreateEndpoint` request that `resourceDocumentDBInstanceEndpointCreate` sends
has an endpoint spec with exactly one of `ServiceIP` and `IpamConfig` populated:
`ServiceIP` alone, holding the parsed CIDR, when `ip_net` is not empty (and then it has
parsed), `IpamConfig` alone when `ip_net` is empty. When `private_network` is not a
non-empty list, or `ip_net` is not empty and fails to parse (the `id` being a string),
the function returns one error diagnostic and leaves the world as it was: no wait, no
`CreateEndpoint`. -/
theorem endpointCreate_spec (h : Helpers) (t : documentdb.Helpers) (x : Externals)
    (api : documentdb.API) (d : ResourceData) (w : documentdb.World) :
    (∀ req, documentdb.Call.CreateEndpoint req
        ∈ (resourceDocumentDBInstanceEndpointCreate h t x api d w).2.Calls →
      documentdb.Call.CreateEndpoint req ∈ w.Calls
      ∨ ∃ pn m rest ipNet,
          req.EndpointSpec = some { PrivateNetwork := some pn }
          ∧ d.Get "private_network" = .list (.map m :: rest)
          ∧ assertString (mapIndex m "ip_net") = some ipNet
          ∧ ((pn.ServiceIP ≠ none ∧ pn.IpamConfig = none)
              ∨ (pn.ServiceIP = none ∧ pn.IpamConfig ≠ none))
          ∧ (ipNet = "" → pn.ServiceIP = none ∧ pn.IpamConfig = some ())
          ∧ (ipNet ≠ "" → ∃ ip, t.ExpandIPNet ipNet = .ok ip
              ∧ pn.ServiceIP = some ip ∧ pn.IpamConfig = none))
    ∧ ((∀ first rest, d.Get "private_network" ≠ .list (first :: rest)) →
        ∃ g, (resourceDocumentDBInstanceEndpointCreate h t x api d w).1 = .ok [g]
          ∧ g.Severity = .Error
          ∧ (resourceDocumentDBInstanceEndpointCreate h t x api d w).2 = w)
    ∧ (∀ m rest id ipNet err, d.Get "private_network" = .list (.map m :: rest) →
        assertString (mapIndex m "id") = some id →
        assertString (mapIndex m "ip_net") = some ipNet →
        ipNet ≠ "" → t.ExpandIPNet ipNet = .error err →
        ∃ g, (resourceDocumentDBInstanceEndpointCreate h t x api d w).1 = .ok [g]
          ∧ g.Severity = .Error
          ∧ (resourceDocumentDBInstanceEndpointCreate h t x api d w).2 = w) := by
  refine ⟨?_, ?_, ?_⟩
  · intro req hreq
    rcases endpointCreate_calls h t x api d w with hc
      | ⟨region, m, rest, id, ipNet, pn, tail, _, hget, _, hip, _, hempty, hfull, htail, hc | hc⟩
    · rw [hc] at hreq
      exact Or.inl hreq
    · rw [hc] at hreq
      simp only [List.mem_append, List.mem_singleton, reduceCtorEq, or_false] at hreq
      exact Or.inl hreq
    · rw [hc] at hreq
      simp only [List.mem_append, List.mem_cons, reduceCtorEq, false_or,
        documentdb.Call.CreateEndpoint.injEq, List.mem_singleton, List.not_mem_nil,
        or_false] at hreq
      rcases hreq with (hreq | hreq) | hreq
      · exact Or.inl hreq
      · right
        subst hreq
        refine ⟨pn, m, rest, ipNet, rfl, hget, hip, ?_, hempty, hfull⟩
        by_cases he : ipNet = ""
        · right
          obtain ⟨h1, h2⟩ := hempty he
          exact ⟨h1, by simp [h2]⟩
        · left
          obtain ⟨ip, _, h1, h2⟩ := hfull he
          exact ⟨by simp [h1], h2⟩
      · exact absurd rfl (htail _ hreq req)
  · intro hnot
    unfold resourceDocumentDBInstanceEndpointCreate
    cases hr : x.ExtractRegion d with
    | error e => exact ⟨_, rfl, rfl, rfl⟩
    | ok region =>
      simp only []
      split
      · rename_i m rest hget
        exact absurd hget (hnot _ _)
      · rename_i other rest _ hget
        exact absurd hget (hnot _ _)
      · exact ⟨_, rfl, rfl, rfl⟩
  · intro m rest id ipNet err hget hid hip hne hexp
    have hpos := string_length_pos ipNet hne
    unfold resourceDocumentDBInstanceEndpointCreate
    cases hr : x.ExtractRegion d with
    | error e => exact ⟨_, rfl, rfl, rfl⟩
    | ok region =>
      simp only [hget, hid, hip, hpos, if_true, hexp]
      refine ⟨{ Severity := .Error, Summary := x.ErrorText err }, ?_, ?_, ?_⟩ <;>
        first | rfl | trivial

theorem endpointCreate_spec_witness :
    (resourceDocumentDBInstanceEndpointCreate sampleHelpers sampleDocumentDBHelpers
        sampleEndpointExternals sampleDocumentDBAPI
        (sampleEndpointData (.list [.map [("id", .str "pn-1"), ("ip_net", .str "")]]))
        emptyEndpointWorld).2.Calls
      = [.waitForDocumentDBInstance "fr-par" "i-1",
         .CreateEndpoint
           { Region := "fr-par", InstanceID := "i-1",
             EndpointSpec := some
               { PrivateNetwork := some
                   { PrivateNetworkID := "pn-1", ServiceIP := none, IpamConfig := some () } } },
         .waitForDocumentDBInstance "fr-par" "i-1",
         .GetEndpoint "fr-par" "e-1"]
    ∧ (resourceDocumentDBInstanceEndpointCreate sampleHelpers sampleDocumentDBHelpers
        sampleEndpointExternals sampleDocumentDBAPI
        (sampleEndpointData (.list [.map [("id", .str "pn-1"), ("ip_net", .str "10.0.0.2/24")]]))
        emptyEndpointWorld).2.Calls
      = [.waitForDocumentDBInstance "fr-par" "i-1",
         .CreateEndpoint
           { Region := "fr-par", InstanceID := "i-1",
             EndpointSpec := some
               { PrivateNetwork := some
                   { PrivateNetworkID := "pn-1", ServiceIP := some { CIDR := "10.0.0.2/24" },
                     IpamConfig := none } } },
         .waitForDocumentDBInstance "fr-par" "i-1",
         .GetEndpoint "fr-par" "e-1"]
    ∧ (∃ g, (resourceDocumentDBInstanceEndpointCreate sampleHelpers sampleDocumentDBHelpers
          sampleEndpointExternals sampleDocumentDBAPI
          (sampleEndpointData (.list [.map [("id", .str "pn-1"), ("ip_net", .str "10.0.0.2")]]))
          emptyEndpointWorld).1 = .ok [g]
        ∧ g.Severity = .Error
        ∧ (resourceDocumentDBInstanceEndpointCreate sampleHelpers sampleDocumentDBHelpers
          sampleEndpointExternals sampleDocumentDBAPI
          (sampleEndpointData (.list [.map [("id", .str "pn-1"), ("ip_net", .str "10.0.0.2")]]))
          emptyEndpointWorld).2 = emptyEndpointWorld)
    ∧ (∃ g, (resourceDocumentDBInstanceEndpointCreate sampleHelpers sampleDocumentDBHelpers
          sampleEndpointExternals sampleDocumentDBAPI (sampleEndpointData (.list []))
          emptyEndpointWorld).1 = .ok [g]
        ∧ g.Severity = .Error
        ∧ (resourceDocumentDBInstanceEndpointCreate sampleHelpers sampleDocumentDBHelpers
          sampleEndpointExternals sampleDocumentDBAPI (sampleEndpointData (.list []))
          emptyEndpointWorld).2 = emptyEndpointWorld) :=
  ⟨by decide, by decide,
    (endpointCreate_spec sampleHelpers sampleDocumentDBHelpers sampleEndpointExternals
      sampleDocumentDBAPI
      (sampleEndpointData (.list [.map [("id", .str "pn-1"), ("ip_net", .str "10.0.0.2")]]))
      emptyEndpointWorld).2.2 [("id", .str "pn-1"), ("ip_net", .str "10.0.0.2")] [] "pn-1"
      "10.0.0.2" (.errorString "invalid CIDR address") rfl rfl rfl (by decide) rfl,
    (endpointCreate_spec sampleHelpers sampleDocumentDBHelpers sampleEndpointExternals
      sampleDocumentDBAPI (sampleEndpointData (.list [])) emptyEndpointWorld).2.1
      (fun first rest hne => by
        have : (Value.list [] : Value) = Value.list (first :: rest) := hne
        cases this)⟩

end Scaleway
